import Mathlib

/-!
Shallow embedding of the Tabble multi-tenant restaurant backend
(`app/database.py`, `app/routers/customer.py`, `app/routers/chef.py`,
`app/routers/admin.py`, `app/services/otp_service.py`).

Rows of the relational tables are Lean structures; the database is a record
of lists of rows (insertion order models the default SQL row order that
SQLAlchemy `.first()` and `.all()` observe).  Money columns (`Float` in the
source) are modelled as `Rat`; timestamps are seconds as `Nat`; SQL `NULL`
is `Option`.  Route handlers become functions `DB → ... → Except HErr ...`
mirroring FastAPI's `HTTPException(status_code, detail)`.
-/

namespace Tabble

/-- HTTP-style error carrying the status code and detail string of an
`HTTPException`. -/
structure HErr where
  code : Nat
  detail : String
  deriving DecidableEq, Repr

/-- Outcome of python `json.loads` on a dish's serialized `category` column:
a JSON array of strings, a JSON string (keeping the raw serialized text,
which is what `get_categories` adds to its set), some other JSON value, or
text that fails to parse. -/
inductive CatField where
  | arr (cs : List String)
  | strv (raw : String) (s : String)
  | other (raw : String)
  | undecoded (s : String)
  deriving DecidableEq, Repr

/-- Row of the `dishes` table (`class Dish` in `app/database.py`).
`category` is `none` for SQL NULL; flags are the `Integer` 0/1 columns. -/
structure DishRow where
  id : Nat
  hotelId : Nat
  name : String
  category : Option CatField
  price : Rat
  isOffer : Nat
  isSpecial : Nat
  visibility : Nat
  deriving DecidableEq, Repr

/-- Row of the `persons` table. -/
structure PersonRow where
  id : Nat
  hotelId : Nat
  username : Option String
  password : Option String
  phoneNumber : Option String
  visitCount : Nat
  lastVisit : Nat
  deriving DecidableEq, Repr

/-- Row of the `orders` table. -/
structure OrderRow where
  id : Nat
  hotelId : Nat
  tableNumber : Nat
  uniqueId : String
  personId : Option Nat
  status : String
  totalAmount : Option Rat
  subtotalAmount : Option Rat
  loyaltyDiscountAmount : Rat
  selectionOfferDiscountAmount : Rat
  loyaltyDiscountPercentage : Rat
  createdAt : Nat
  updatedAt : Nat
  deriving DecidableEq, Repr

/-- Row of the `order_items` table; `price` snapshots the dish price at
order time. -/
structure OrderItemRow where
  id : Nat
  hotelId : Nat
  orderId : Nat
  dishId : Nat
  quantity : Nat
  price : Rat
  remarks : Option String
  deriving DecidableEq, Repr

/-- Row of the `tables` table. -/
structure TableRow where
  id : Nat
  hotelId : Nat
  tableNumber : Nat
  isOccupied : Bool
  currentOrderId : Option Nat
  updatedAt : Nat
  deriving DecidableEq, Repr

/-- Row of the `loyalty_tiers` table (`class LoyaltyProgram`). -/
structure LoyaltyRow where
  id : Nat
  hotelId : Nat
  visitCount : Nat
  discountPercentage : Rat
  isActive : Bool
  deriving DecidableEq, Repr

/-- Row of the `selection_offers` table (`class SelectionOffer`). -/
structure SelectionOfferRow where
  id : Nat
  hotelId : Nat
  minAmount : Rat
  discountAmount : Rat
  isActive : Bool
  deriving DecidableEq, Repr

/-- Row of the `otp_requests` table (`class OtpRequest`); `id` is the
uuid token string. -/
structure OtpRow where
  id : String
  hotelId : Nat
  phoneNumber : String
  otpCode : String
  createdAt : Nat
  verified : Bool
  deriving DecidableEq, Repr

/-- The per-hotel relational state reachable from the embedded handlers,
plus autoincrement counters for the integer primary keys. -/
structure DB where
  dishes : List DishRow
  persons : List PersonRow
  orders : List OrderRow
  orderItems : List OrderItemRow
  tables : List TableRow
  loyaltyTiers : List LoyaltyRow
  selectionOffers : List SelectionOfferRow
  otpRequests : List OtpRow
  nextPersonId : Nat
  nextOrderId : Nat
  nextOrderItemId : Nat
  deriving DecidableEq, Repr

/-! ## Session / tenant context (`app/database.py`) -/

/-- `get_session_hotel_id`: the session map binds a session id to an
optional hotel id. -/
def get_session_hotel_id (sessions : List (String × Option Nat)) (sid : String) :
    Option Nat :=
  match sessions.lookup sid with
  | some h => h
  | none => none

/-- `get_hotel_id_from_request`: python `if not hotel_id` treats both
`None` and `0` as missing context and raises HTTP 400. -/
def get_hotel_id_from_request (sessions : List (String × Option Nat)) (sid : String) :
    Except HErr Nat :=
  match get_session_hotel_id sessions sid with
  | some h => if h = 0 then .error ⟨400, "No hotel context set"⟩ else .ok h
  | none => .error ⟨400, "No hotel context set"⟩

/-! ## Customer menu listings (`app/routers/customer.py`) -/

/-- The query `db.query(Dish).filter(Dish.hotel_id == hotel_id,
Dish.visibility == 1)` shared by the listing endpoints. -/
def visibleDishes (db : DB) (hotelId : Nat) : List DishRow :=
  db.dishes.filter (fun d => d.hotelId == hotelId && d.visibility == 1)

/-- The per-dish category test of `get_menu`: parse the serialized column
(`[]` when the column is falsy), then membership for a list, equality for a
string, and raw-text equality as the `JSONDecodeError` fallback. -/
def dishMatchesCategory (cf : Option CatField) (c : String) : Bool :=
  match cf with
  | none => false
  | some (.arr cs) => cs.contains c
  | some (.strv _ s) => s == c
  | some (.other _) => false
  | some (.undecoded s) => if s = "" then false else s == c

/-- `get_menu`: all visible dishes of the hotel, optionally filtered by
category (an empty category string is falsy in python, disabling the
filter). -/
def get_menu (db : DB) (hotelId : Nat) (category : Option String) : List DishRow :=
  match category with
  | some c =>
      if c = "" then visibleDishes db hotelId
      else (visibleDishes db hotelId).filter (fun d => dishMatchesCategory d.category c)
  | none => visibleDishes db hotelId

/-- `get_offers`: visible dishes flagged `is_offer == 1`. -/
def get_offers (db : DB) (hotelId : Nat) : List DishRow :=
  db.dishes.filter (fun d => d.hotelId == hotelId && d.isOffer == 1 && d.visibility == 1)

/-- `get_specials`: visible dishes flagged `is_special == 1`. -/
def get_specials (db : DB) (hotelId : Nat) : List DishRow :=
  db.dishes.filter (fun d => d.hotelId == hotelId && d.isSpecial == 1 && d.visibility == 1)

/-- Strings a single (distinct) category column value contributes to the
`unique_categories` set of `get_categories`: skipped when falsy, the parsed
elements for a JSON array, otherwise the raw column text. -/
def catContribution (cf : Option CatField) : List String :=
  match cf with
  | none => []
  | some (.arr cs) => cs
  | some (.strv raw _) => [raw]
  | some (.other raw) => [raw]
  | some (.undecoded s) => if s = "" then [] else [s]

/-- `get_categories`: distinct category column values of the hotel's
visible dishes, flattened into a set and returned sorted. -/
def get_categories (db : DB) (hotelId : Nat) : List String :=
  let cats := ((visibleDishes db hotelId).map (fun d => d.category)).dedup
  let all := cats.foldl (fun acc cf => acc ++ catContribution cf) []
  all.toFinset.sort (· ≤ ·)

/-! ## Registration, login (`app/routers/customer.py`) -/

/-- `register_user`: update `last_visit` of an existing user with this
username, or insert a new person with `visit_count=0`.  Returns the new
state and the person serialized in the response. -/
def register_user (db : DB) (hotelId : Nat) (username password : String) (now : Nat) :
    DB × PersonRow :=
  match db.persons.find? (fun p => p.hotelId == hotelId && p.username == some username) with
  | some p =>
      let p2 := { p with lastVisit := now }
      ({ db with persons := db.persons.map (fun q => if q.id == p.id then p2 else q) }, p2)
  | none =>
      let p : PersonRow :=
        { id := db.nextPersonId, hotelId := hotelId, username := some username,
          password := some password, phoneNumber := none, visitCount := 0, lastVisit := now }
      ({ db with persons := db.persons ++ [p], nextPersonId := db.nextPersonId + 1 }, p)

/-- `login_user`: 401 for unknown username or wrong password, otherwise
update `last_visit` only. -/
def login_user (db : DB) (hotelId : Nat) (username password : String) (now : Nat) :
    Except HErr (DB × PersonRow) :=
  match db.persons.find? (fun p => p.hotelId == hotelId && p.username == some username) with
  | none => .error ⟨401, "Invalid username"⟩
  | some p =>
      if p.password ≠ some password then .error ⟨401, "Invalid password"⟩
      else
        let p2 := { p with lastVisit := now }
        .ok ({ db with persons := db.persons.map (fun q => if q.id == p.id then p2 else q) }, p2)

/-! ## Order placement (`create_order` in `app/routers/customer.py`) -/

/-- Body schema `OrderItemCreate`. -/
structure OrderItemCreate where
  dishId : Nat
  quantity : Nat
  remarks : Option String
  deriving DecidableEq, Repr

/-- Body schema `OrderCreate`. -/
structure OrderCreate where
  tableNumber : Nat
  uniqueId : String
  items : List OrderItemCreate
  username : Option String
  password : Option String
  deriving DecidableEq, Repr

/-- Python truthiness of the optional integer query parameter `person_id`. -/
def personIdTruthy (personId : Option Nat) : Bool :=
  match personId with
  | some p => p != 0
  | none => false

/-- First phase of `create_order`: resolve (and bump) the person.  With a
falsy `person_id` the handler looks the person up by username, increments
the visit count of an existing one or inserts a new person with
`visit_count=1`; with a truthy `person_id` it increments the visit count of
the matching person of this hotel, silently keeping the dangling id
otherwise. -/
def resolveOrderPerson (db : DB) (hotelId : Nat) (order : OrderCreate)
    (personId : Option Nat) (now : Nat) : DB × Option Nat :=
  if !(personIdTruthy personId) then
    match db.persons.find? (fun p => p.hotelId == hotelId && p.username == order.username) with
    | some p =>
        let p2 := { p with visitCount := p.visitCount + 1, lastVisit := now }
        ({ db with persons := db.persons.map (fun q => if q.id == p.id then p2 else q) },
          some p.id)
    | none =>
        let p : PersonRow :=
          { id := db.nextPersonId, hotelId := hotelId, username := order.username,
            password := order.password, phoneNumber := none, visitCount := 1, lastVisit := now }
        ({ db with persons := db.persons ++ [p], nextPersonId := db.nextPersonId + 1 },
          some p.id)
  else
    match db.persons.find? (fun p => p.hotelId == hotelId && some p.id == personId) with
    | some p =>
        let p2 := { p with visitCount := p.visitCount + 1, lastVisit := now }
        ({ db with persons := db.persons.map (fun q => if q.id == p.id then p2 else q) },
          personId)
    | none => (db, personId)

/-- The pending order row `create_order` inserts. -/
def newOrderRow (db1 : DB) (hotelId : Nat) (order : OrderCreate)
    (personId : Option Nat) (now : Nat) : OrderRow :=
  { id := db1.nextOrderId, hotelId := hotelId, tableNumber := order.tableNumber,
    uniqueId := order.uniqueId, personId := personId, status := "pending",
    totalAmount := none, subtotalAmount := none, loyaltyDiscountAmount := 0,
    selectionOfferDiscountAmount := 0, loyaltyDiscountPercentage := 0,
    createdAt := now, updatedAt := now }

/-- One step of the item-insertion loop of `create_order`: skip the item
when its dish does not exist in this hotel, otherwise insert an order item
snapshotting the dish price. -/
def addOrderItem (hotelId orderId : Nat) (acc : DB) (item : OrderItemCreate) : DB :=
  match acc.dishes.find? (fun d => d.hotelId == hotelId && d.id == item.dishId) with
  | none => acc
  | some dish =>
      { acc with
        orderItems := acc.orderItems ++
          [{ id := acc.nextOrderItemId, hotelId := hotelId, orderId := orderId,
             dishId := item.dishId, quantity := item.quantity, price := dish.price,
             remarks := item.remarks }],
        nextOrderItemId := acc.nextOrderItemId + 1 }

/-- `create_order`: resolve the person, insert the `pending` order, mark
the order's table (looked up with the hotel filter) occupied pointing at
the new order, then insert one order item per requested item whose dish
exists in this hotel. -/
def create_order (db : DB) (hotelId : Nat) (order : OrderCreate)
    (personId : Option Nat) (now : Nat) : DB × OrderRow :=
  let res := resolveOrderPerson db hotelId order personId now
  let db1 := res.1
  let o := newOrderRow db1 hotelId order res.2 now
  let db2 := { db1 with orders := db1.orders ++ [o], nextOrderId := db1.nextOrderId + 1 }
  let db3 :=
    match db2.tables.find? (fun t => t.hotelId == hotelId && t.tableNumber == order.tableNumber) with
    | some t =>
        { db2 with tables := db2.tables.map (fun u =>
            if u.id == t.id then { u with isOccupied := true, currentOrderId := some o.id }
            else u) }
    | none => db2
  let db4 := order.items.foldl (addOrderItem hotelId o.id) db3
  (db4, o)

/-! ## Chef endpoints (`app/routers/chef.py`) -/

/-- `accept_order`: 404 unless the order belongs to the hotel, 400 unless
pending, otherwise set status `accepted`. -/
def accept_order (db : DB) (hotelId orderId now : Nat) : Except HErr (DB × String) :=
  match db.orders.find? (fun o => o.hotelId == hotelId && o.id == orderId) with
  | none => .error ⟨404, "Order not found"⟩
  | some o =>
      if o.status ≠ "pending" then .error ⟨400, "Order is not in pending status"⟩
      else
        let o2 := { o with status := "accepted", updatedAt := now }
        .ok ({ db with orders := db.orders.map (fun u => if u.id == o.id then o2 else u) },
          "Order accepted successfully")

/-- `complete_order`: 404 unless the order belongs to the hotel, 400 unless
accepted, otherwise set status `completed`. -/
def complete_order (db : DB) (hotelId orderId now : Nat) : Except HErr (DB × String) :=
  match db.orders.find? (fun o => o.hotelId == hotelId && o.id == orderId) with
  | none => .error ⟨404, "Order not found"⟩
  | some o =>
      if o.status ≠ "accepted" then
        .error ⟨400, "Order must be accepted before it can be completed"⟩
      else
        let o2 := { o with status := "completed", updatedAt := now }
        .ok ({ db with orders := db.orders.map (fun u => if u.id == o.id then o2 else u) },
          "Order marked as completed")

/-! ## Payment (`request_payment` in `app/routers/customer.py`) -/

/-- The subtotal loop of `request_payment`: for each item of the order add
`item.dish.price * item.quantity`, skipping items whose dish relationship
resolves to nothing.  The `items` and `dish` relationships join on
`order_id` and `dish_id` alone. -/
def computeSubtotal (db : DB) (orderId : Nat) : Rat :=
  (db.orderItems.filter (fun it => it.orderId == orderId)).foldl
    (fun s it =>
      match db.dishes.find? (fun d => d.id == it.dishId) with
      | some dish => s + dish.price * (it.quantity : Rat)
      | none => s) 0

/-- The loyalty block of `request_payment`: with a truthy `person_id`, look
the person up by id alone, then fetch the hotel's active loyalty tier whose
`visit_count` equals the person's; returns (discount amount, discount
percentage). -/
def computeLoyalty (db : DB) (hotelId : Nat) (personId : Option Nat) (subtotal : Rat) :
    Rat × Rat :=
  match personId with
  | none => (0, 0)
  | some pid =>
      if pid = 0 then (0, 0)
      else
        match db.persons.find? (fun p => p.id == pid) with
        | none => (0, 0)
        | some person =>
            match db.loyaltyTiers.find? (fun t =>
                t.hotelId == hotelId && t.visitCount == person.visitCount && t.isActive) with
            | none => (0, 0)
            | some tier =>
                (subtotal * (tier.discountPercentage / 100), tier.discountPercentage)

/-- Model of `ORDER BY min_amount DESC ... first()`: an element with the
greatest `min_amount`, the earliest row winning ties. -/
def selectBestOffer : List SelectionOfferRow → Option SelectionOfferRow
  | [] => none
  | s :: rest =>
      match selectBestOffer rest with
      | none => some s
      | some b => if s.minAmount < b.minAmount then some b else some s

/-- The selection-offer block of `request_payment`: among the hotel's
active offers with `min_amount <= subtotal`, the one with the greatest
`min_amount` supplies its flat `discount_amount`. -/
def computeSelectionDiscount (db : DB) (hotelId : Nat) (subtotal : Rat) : Rat :=
  let eligible := db.selectionOffers.filter (fun s =>
    s.hotelId == hotelId && decide (s.minAmount ≤ subtotal) && s.isActive)
  match selectBestOffer eligible with
  | some s => s.discountAmount
  | none => 0

/-- The table-freeing update shared by `request_payment`: the first table
row matching the order's `table_number` (no hotel filter in the source) is
marked free with its current-order pointer cleared. -/
def freeTables (tables : List TableRow) (tableNumber now : Nat) : List TableRow :=
  match tables.find? (fun t => t.tableNumber == tableNumber) with
  | some t =>
      tables.map (fun u =>
        if u.id == t.id then
          { u with isOccupied := false, currentOrderId := none, updatedAt := now }
        else u)
  | none => tables

/-- The field updates `request_payment` applies to the completed order:
compute subtotal and both discounts and store them together with the
zero-floored final total and status `paid`. -/
def paidOrder (db : DB) (hotelId : Nat) (o : OrderRow) (now : Nat) : OrderRow :=
  let subtotal := computeSubtotal db o.id
  let loy := computeLoyalty db hotelId o.personId subtotal
  let offerAmt := computeSelectionDiscount db hotelId subtotal
  { o with status := "paid", subtotalAmount := some subtotal,
           loyaltyDiscountAmount := loy.1, loyaltyDiscountPercentage := loy.2,
           selectionOfferDiscountAmount := offerAmt,
           totalAmount := some (max 0 (subtotal - loy.1 - offerAmt)),
           updatedAt := now }

/-- Success branch of `request_payment` on the completed order `o`: store
the `paidOrder` fields, and free the order's table when the paid order was
the only not-paid, not-cancelled order at its table number (the
unpaid-orders query runs against the pre-transaction row states and has no
hotel filter in the source). -/
def processPayment (db : DB) (hotelId orderId : Nat) (o : OrderRow) (now : Nat) : DB :=
  let unpaid := db.orders.filter (fun u =>
    u.tableNumber == o.tableNumber && u.status != "paid" && u.status != "cancelled")
  { db with
    orders := db.orders.map (fun u =>
      if u.id == o.id then paidOrder db hotelId o now else u),
    tables :=
      if (match unpaid with | [u] => u.id == orderId | _ => false) then
        freeTables db.tables o.tableNumber now
      else db.tables }

/-- `request_payment`: 404 unless the order belongs to the hotel; an
already-paid order returns a success message without changes; a
non-completed order is a 400; otherwise run the payment computation. -/
def request_payment (db : DB) (hotelId orderId now : Nat) : Except HErr (DB × String) :=
  match db.orders.find? (fun o => o.hotelId == hotelId && o.id == orderId) with
  | none => .error ⟨404, "Order not found"⟩
  | some o =>
      if o.status = "paid" then .ok (db, "Order is already paid")
      else if o.status ≠ "completed" then
        .error ⟨400, "Order must be completed before payment can be processed"⟩
      else .ok (processPayment db hotelId orderId o now, "Payment completed successfully")

/-! ## Cancellation and person lookup (`app/routers/customer.py`) -/

/-- `cancel_order`: 404 unless the order belongs to the hotel, 400 unless
pending; otherwise set status `cancelled` and free the first table row
matching the order's table number (no hotel filter in the source) when its
current-order pointer is this order. -/
def cancel_order (db : DB) (hotelId orderId now : Nat) : Except HErr (DB × String) :=
  match db.orders.find? (fun o => o.hotelId == hotelId && o.id == orderId) with
  | none => .error ⟨404, "Order not found"⟩
  | some o =>
      if o.status ≠ "pending" then
        .error ⟨400, "Only pending orders can be cancelled"⟩
      else
        let o2 := { o with status := "cancelled", updatedAt := now }
        .ok ({ db with
          orders := db.orders.map (fun u => if u.id == o.id then o2 else u),
          tables :=
            match db.tables.find? (fun t => t.tableNumber == o.tableNumber) with
            | some t =>
                if t.currentOrderId == some o.id then
                  db.tables.map (fun u =>
                    if u.id == t.id then
                      { u with isOccupied := false, currentOrderId := none,
                               updatedAt := now }
                    else u)
                else db.tables
            | none => db.tables }, "Order cancelled successfully")

/-- `get_person`: looks the person up by id alone (no hotel filter in the
source), 404 when absent. -/
def get_person (db : DB) (personId : Nat) : Except HErr PersonRow :=
  match db.persons.find? (fun p => p.id == personId) with
  | some p => .ok p
  | none => .error ⟨404, "Person not found"⟩

/-! ## Admin mark-paid (`mark_order_paid` in `app/routers/admin.py`) -/

/-- `mark_order_paid`: looks the order up by id alone and sets its status
to `paid` from any current status. -/
def mark_order_paid (db : DB) (orderId now : Nat) : Except HErr (DB × String) :=
  match db.orders.find? (fun o => o.id == orderId) with
  | none => .error ⟨404, "Order not found"⟩
  | some o =>
      let o2 := { o with status := "paid", updatedAt := now }
      .ok ({ db with orders := db.orders.map (fun u => if u.id == o.id then o2 else u) },
        "Order marked as paid")

/-! ## OTP verification (`app/services/otp_service.py`) -/

/-- Expiry window `OTP_EXPIRY_MINUTES = 5`, in seconds. -/
def OTP_EXPIRY_SECONDS : Nat := 5 * 60

/-- `otp_service.verify_otp`: look the record up by token, then reject on
phone mismatch, on an already-verified record, past the expiry window
(strict comparison `now > created_at + 5 minutes`), or on a wrong code;
otherwise mark the record verified. -/
def verify_otp (db : DB) (token otp phoneNumber : String) (now : Nat) : Except HErr DB :=
  match db.otpRequests.find? (fun r => r.id == token) with
  | none => .error ⟨400, "Invalid OTP session or token."⟩
  | some r =>
      if r.phoneNumber ≠ phoneNumber then
        .error ⟨400, "OTP was not sent to this phone number."⟩
      else if r.verified then
        .error ⟨400, "This OTP has already been used."⟩
      else if r.createdAt + OTP_EXPIRY_SECONDS < now then
        .error ⟨400, "OTP has expired. Please request a new one."⟩
      else if r.otpCode ≠ otp then
        .error ⟨400, "Invalid OTP code."⟩
      else
        .ok { db with otpRequests := db.otpRequests.map (fun u =>
          if u.id == r.id then { u with verified := true } else u) }

/-- Customer endpoint `verify_otp`: run the OTP service, then update
`last_visit` of the hotel's person with this phone number (visit count
untouched); returns the matched person id when one exists. -/
def verify_otp_endpoint (db : DB) (hotelId : Nat) (token otp phoneNumber : String)
    (now : Nat) : Except HErr (DB × Option Nat) :=
  match verify_otp db token otp phoneNumber now with
  | .error e => .error e
  | .ok db1 =>
      match db1.persons.find? (fun p =>
          p.hotelId == hotelId && p.phoneNumber == some phoneNumber) with
      | some u =>
          let u2 := { u with lastVisit := now }
          .ok ({ db1 with persons := db1.persons.map (fun q =>
            if q.id == u.id then u2 else q) }, some u.id)
      | none => .ok (db1, none)

/-! ## Generic list lemmas used by several claims -/

theorem find?_map_of_pred_eq {α : Type} (f : α → α) (p : α → Bool) (l : List α)
    (hp : ∀ a, p (f a) = p a) : (l.map f).find? p = (l.find? p).map f := by
  induction l with
  | nil => rfl
  | cons a l ih =>
      by_cases h : p a = true
      · simp [List.find?_cons, hp a, h]
      · have h2 : p a = false := by revert h; cases p a <;> simp
        simp [List.find?_cons, hp a, h2, ih]

theorem mem_of_find?_pred {α : Type} {p : α → Bool} {l : List α} {a : α}
    (h : l.find? p = some a) : a ∈ l ∧ p a = true :=
  ⟨List.mem_of_find?_eq_some h, List.find?_some h⟩

/-! ## C4: soft-deleted dishes are invisible everywhere -/

theorem visibleDishes_erase (db : DB) (hotelId : Nat) (d : DishRow)
    (hvis : d.visibility ≠ 1) (pre post : List DishRow)
    (hsplit : db.dishes = pre ++ d :: post) :
    visibleDishes { db with dishes := pre ++ post } hotelId = visibleDishes db hotelId := by
  have hp : (d.hotelId == hotelId && d.visibility == 1) = false := by
    have : (d.visibility == 1) = false := by
      simp only [beq_eq_false_iff_ne, ne_eq]
      exact hvis
    simp [this]
  simp [visibleDishes, hsplit, List.filter_append, List.filter_cons, hp]

/-- C4: a dish whose visibility flag is not 1 is absent from the menu (with
or without a category filter), from the offers and specials listings, and
removing it from the database leaves the category listing unchanged. -/
theorem invisible_dish_never_listed (db : DB) (hotelId : Nat) (d : DishRow)
    (hvis : d.visibility ≠ 1) :
    (∀ c : Option String, d ∉ get_menu db hotelId c) ∧
    d ∉ get_offers db hotelId ∧
    d ∉ get_specials db hotelId ∧
    (∀ pre post : List DishRow, db.dishes = pre ++ d :: post →
      get_categories { db with dishes := pre ++ post } hotelId =
        get_categories db hotelId) := by
  have hvisb : (d.visibility == 1) = false := by
    simp only [beq_eq_false_iff_ne, ne_eq]; exact hvis
  have hnotvis : d ∉ visibleDishes db hotelId := by
    intro hmem
    have := (List.mem_filter.mp hmem).2
    simp [hvisb] at this
  refine ⟨?_, ?_, ?_, ?_⟩
  · intro c hmem
    match c with
    | none => exact hnotvis hmem
    | some s =>
        simp only [get_menu] at hmem
        by_cases hs : s = ""
        · rw [if_pos hs] at hmem; exact hnotvis hmem
        · rw [if_neg hs] at hmem
          exact hnotvis (List.mem_filter.mp hmem).1
  · intro hmem
    have := (List.mem_filter.mp hmem).2
    simp [hvisb] at this
  · intro hmem
    have := (List.mem_filter.mp hmem).2
    simp [hvisb] at this
  · intro pre post hsplit
    have h := visibleDishes_erase db hotelId d hvis pre post hsplit
    simp only [get_categories, h]

/-- Sample state for the C4 witness: one hidden dish next to a visible one
in hotel 1. -/
def dbC4 : DB :=
  { dishes :=
      [ { id := 1, hotelId := 1, name := "Dosa", category := some (.arr ["tiffin"]),
          price := 40, isOffer := 1, isSpecial := 1, visibility := 0 },
        { id := 2, hotelId := 1, name := "Idli", category := some (.arr ["tiffin"]),
          price := 30, isOffer := 0, isSpecial := 0, visibility := 1 } ],
    persons := [], orders := [], orderItems := [], tables := [], loyaltyTiers := [],
    selectionOffers := [], otpRequests := [], nextPersonId := 1, nextOrderId := 1,
    nextOrderItemId := 1 }

/-- The hidden dish of `dbC4`. -/
def dishC4 : DishRow :=
  { id := 1, hotelId := 1, name := "Dosa", category := some (.arr ["tiffin"]),
    price := 40, isOffer := 1, isSpecial := 1, visibility := 0 }

/-- Witness for C4 at a concrete state. -/
theorem invisible_dish_never_listed_witness :
    dishC4 ∉ get_menu dbC4 1 (some "tiffin") ∧ dishC4 ∉ get_offers dbC4 1 ∧
    dishC4 ∉ get_specials dbC4 1 ∧
    get_categories { dbC4 with dishes := [] ++ List.drop 1 dbC4.dishes } 1 =
      get_categories dbC4 1 := by
  have h := invisible_dish_never_listed dbC4 1 dishC4 (by decide)
  exact ⟨h.1 (some "tiffin"), h.2.1, h.2.2.1, h.2.2.2 [] (List.drop 1 dbC4.dishes) rfl⟩

/-! ## C5: OTP records are single use and expire -/

theorem otp_verify_ok_inversion (db : DB) (token otp phone : String) (now : Nat) (db2 : DB)
    (hok : verify_otp db token otp phone now = .ok db2) :
    ∃ r, db.otpRequests.find? (fun u => u.id == token) = some r ∧
      r.phoneNumber = phone ∧ r.verified = false ∧
      ¬ (r.createdAt + OTP_EXPIRY_SECONDS < now) ∧ r.otpCode = otp ∧
      db2 = { db with otpRequests := db.otpRequests.map (fun u =>
        if u.id == r.id then { u with verified := true } else u) } := by
  cases hfind : db.otpRequests.find? (fun u => u.id == token) with
  | none =>
      simp only [verify_otp, hfind] at hok
      exact Except.noConfusion hok
  | some r =>
      simp only [verify_otp, hfind] at hok
      by_cases h1 : r.phoneNumber ≠ phone
      · rw [if_pos h1] at hok; exact Except.noConfusion hok
      rw [if_neg h1] at hok
      by_cases h2 : r.verified = true
      · rw [if_pos h2] at hok; exact Except.noConfusion hok
      rw [if_neg h2] at hok
      by_cases h3 : r.createdAt + OTP_EXPIRY_SECONDS < now
      · rw [if_pos h3] at hok; exact Except.noConfusion hok
      rw [if_neg h3] at hok
      by_cases h4 : r.otpCode ≠ otp
      · rw [if_pos h4] at hok; exact Except.noConfusion hok
      rw [if_neg h4] at hok
      simp only [Except.ok.injEq] at hok
      exact ⟨r, rfl, by simpa using h1, by simpa using h2, h3, by simpa using h4,
        hok.symm⟩

/-- C5: (1) verifying a record already marked verified is rejected with an
error; (2) a successful verification marks the record verified, and a
second attempt on the same token is rejected as already used; (3) any
attempt strictly after the 5-minute expiry window is rejected with an
error. -/
theorem otp_single_use_and_expiry :
    (∀ (db : DB) (token otp phone : String) (now : Nat) (r : OtpRow),
        db.otpRequests.find? (fun u => u.id == token) = some r → r.verified = true →
        ∃ e, verify_otp db token otp phone now = .error e) ∧
    (∀ (db : DB) (token otp phone : String) (now : Nat) (db2 : DB),
        verify_otp db token otp phone now = .ok db2 →
        (db2.otpRequests.find? (fun u => u.id == token)).map OtpRow.verified = some true ∧
        ∀ (otp2 : String) (now2 : Nat), verify_otp db2 token otp2 phone now2 =
          .error ⟨400, "This OTP has already been used."⟩) ∧
    (∀ (db : DB) (token otp phone : String) (now : Nat) (r : OtpRow),
        db.otpRequests.find? (fun u => u.id == token) = some r →
        r.createdAt + OTP_EXPIRY_SECONDS < now →
        ∃ e, verify_otp db token otp phone now = .error e) := by
  refine ⟨?_, ?_, ?_⟩
  · intro db token otp phone now r hfind hverified
    by_cases hph : r.phoneNumber ≠ phone
    · exact ⟨_, by simp only [verify_otp, hfind]; rw [if_pos hph]⟩
    · exact ⟨_, by simp only [verify_otp, hfind]; rw [if_neg hph, if_pos hverified]⟩
  · intro db token otp phone now db2 hok
    obtain ⟨r, hfind, hph, hver, hexp, hcode, hdb2⟩ :=
      otp_verify_ok_inversion db token otp phone now db2 hok
    have hpresid : ∀ u : OtpRow,
        (((if u.id == r.id then { u with verified := true } else u) : OtpRow).id == token) =
          (u.id == token) := by
      intro u; by_cases h : (u.id == r.id) = true <;> simp [h]
    have hfind2 : db2.otpRequests.find? (fun u => u.id == token) =
        some { r with verified := true } := by
      subst hdb2
      show (db.otpRequests.map
        (fun u => if u.id == r.id then { u with verified := true } else u)).find?
          (fun u => u.id == token) = some { r with verified := true }
      rw [find?_map_of_pred_eq _ _ _ hpresid, hfind]
      simp
    constructor
    · rw [hfind2]; rfl
    · intro otp2 now2
      simp [verify_otp, hfind2, hph]
  · intro db token otp phone now r hfind hlate
    by_cases hph : r.phoneNumber ≠ phone
    · refine ⟨⟨400, "OTP was not sent to this phone number."⟩, ?_⟩
      simp only [verify_otp, hfind]
      rw [if_pos hph]
    by_cases hver : r.verified = true
    · refine ⟨⟨400, "This OTP has already been used."⟩, ?_⟩
      simp only [verify_otp, hfind]
      rw [if_neg hph, if_pos hver]
    refine ⟨⟨400, "OTP has expired. Please request a new one."⟩, ?_⟩
    simp only [verify_otp, hfind]
    rw [if_neg hph, if_neg hver, if_pos hlate]

/-- Sample state for the C5 witness: one fresh OTP record. -/
def dbC5 : DB :=
  { dishes := [], persons := [], orders := [], orderItems := [], tables := [],
    loyaltyTiers := [], selectionOffers := [],
    otpRequests :=
      [ { id := "tok", hotelId := 1, phoneNumber := "999", otpCode := "12345",
          createdAt := 0, verified := false } ],
    nextPersonId := 1, nextOrderId := 1, nextOrderItemId := 1 }

/-- State of `dbC5` after a successful verification. -/
def dbC5v : DB :=
  { dbC5 with
    otpRequests :=
      [ { id := "tok", hotelId := 1, phoneNumber := "999", otpCode := "12345",
          createdAt := 0, verified := true } ] }

/-- Witness for C5 at a concrete state: a successful verification marks the
record, the second attempt is rejected, and a late attempt is rejected. -/
theorem otp_single_use_and_expiry_witness :
    ((dbC5v.otpRequests.find? (fun u => u.id == "tok")).map OtpRow.verified = some true ∧
      ∀ (otp2 : String) (now2 : Nat), verify_otp dbC5v "tok" otp2 "999" now2 =
        .error ⟨400, "This OTP has already been used."⟩) ∧
    (∃ e, verify_otp dbC5 "tok" "12345" "999" 400 = .error e) := by
  constructor
  · exact otp_single_use_and_expiry.2.1 dbC5 "tok" "12345" "999" 10 dbC5v (by rfl)
  · exact otp_single_use_and_expiry.2.2 dbC5 "tok" "12345" "999" 400
      ⟨"tok", 1, "999", "12345", 0, false⟩ (by rfl) (by decide)

/-! ## C1: queries missing the tenant filter (code bug) -/

/-- Two-hotel state: person 1 and the first table row with number 5 belong
to hotel 2, while the session's hotel 1 owns order 10 on its own table 5. -/
def dbC1 : DB :=
  { dishes := [],
    persons :=
      [ { id := 1, hotelId := 2, username := some "mallory", password := some "p",
          phoneNumber := none, visitCount := 3, lastVisit := 0 } ],
    orders :=
      [ { id := 10, hotelId := 1, tableNumber := 5, uniqueId := "u", personId := none,
          status := "pending", totalAmount := none, subtotalAmount := none,
          loyaltyDiscountAmount := 0, selectionOfferDiscountAmount := 0,
          loyaltyDiscountPercentage := 0, createdAt := 0, updatedAt := 0 } ],
    orderItems := [],
    tables :=
      [ { id := 1, hotelId := 2, tableNumber := 5, isOccupied := true,
          currentOrderId := some 10, updatedAt := 0 },
        { id := 2, hotelId := 1, tableNumber := 5, isOccupied := true,
          currentOrderId := some 10, updatedAt := 0 } ],
    loyaltyTiers := [], selectionOffers := [], otpRequests := [],
    nextPersonId := 2, nextOrderId := 11, nextOrderItemId := 1 }

/-- C1 (code bug): with the session bound to hotel 1, the person lookup of
`get_person` returns hotel 2's person, and `cancel_order` on hotel 1's
order 10 frees hotel 2's table row while hotel 1's own table 5 stays
occupied — the `Person` and `Table` queries of `get_person`,
`cancel_order` and `request_payment` carry no `hotel_id` filter,
contradicting the per-query tenant-isolation invariant stated by the spec
and enforced everywhere else in the router. -/
theorem cross_tenant_rows_touched :
    (get_person dbC1 1).toOption.map PersonRow.hotelId = some 2 ∧
    (cancel_order dbC1 1 10 7).toOption.map
        (fun pr => pr.1.tables.map (fun t => (t.hotelId, t.isOccupied))) =
      some [(2, false), (1, true)] :=
  ⟨rfl, rfl⟩

/-! ## C6: order status transitions -/

/-- Concrete cancelled order for the C6 counterexample. -/
def dbC6 : DB :=
  { dishes := [], persons := [],
    orders :=
      [ { id := 1, hotelId := 1, tableNumber := 2, uniqueId := "x", personId := none,
          status := "cancelled", totalAmount := none, subtotalAmount := none,
          loyaltyDiscountAmount := 0, selectionOfferDiscountAmount := 0,
          loyaltyDiscountPercentage := 0, createdAt := 0, updatedAt := 0 } ],
    orderItems := [], tables := [], loyaltyTiers := [], selectionOffers := [],
    otpRequests := [], nextPersonId := 1, nextOrderId := 2, nextOrderItemId := 1 }

/-- C6 counterexample: the admin mark-paid endpoint moves a cancelled
order to `paid`, an edge outside the claimed transition system, so a
cancelled order does change status again. -/
theorem admin_mark_paid_breaks_transitions :
    dbC6.orders.map OrderRow.status = ["cancelled"] ∧
    (mark_order_paid dbC6 1 9).toOption.map (fun pr => pr.1.orders.map OrderRow.status) =
      some ["paid"] :=
  ⟨rfl, rfl⟩

theorem orders_update_shape (orders : List OrderRow) (o o2 : OrderRow)
    (hnd : (orders.map OrderRow.id).Nodup) (ho : o ∈ orders) :
    ∀ q ∈ orders, ∃ q2 ∈ orders.map (fun u => if u.id == o.id then o2 else u),
      (q2 = q ∨ (q = o ∧ q2 = o2)) := by
  intro q hq
  by_cases h : (q.id == o.id) = true
  · have heq : q = o :=
      List.inj_on_of_nodup_map hnd hq ho (by simpa using h)
    refine ⟨o2, ?_, Or.inr ⟨heq, rfl⟩⟩
    have hm := List.mem_map_of_mem (fun u => if u.id == o.id then o2 else u) hq
    simpa [h] using hm
  · refine ⟨q, ?_, Or.inl rfl⟩
    have hm := List.mem_map_of_mem (fun u => if u.id == o.id then o2 else u) hq
    simpa [h] using hm

theorem accept_order_ok_inversion (db : DB) (h oid now : Nat) (db2 : DB) (m : String)
    (hok : accept_order db h oid now = .ok (db2, m)) :
    ∃ o, db.orders.find? (fun u => u.hotelId == h && u.id == oid) = some o ∧
      o.status = "pending" ∧
      db2 = { db with orders := db.orders.map (fun u =>
        if u.id == o.id then { o with status := "accepted", updatedAt := now } else u) } := by
  cases hfind : db.orders.find? (fun u => u.hotelId == h && u.id == oid) with
  | none => simp only [accept_order, hfind] at hok; exact Except.noConfusion hok
  | some o =>
      simp only [accept_order, hfind] at hok
      by_cases hst : o.status ≠ "pending"
      · rw [if_pos hst] at hok; exact Except.noConfusion hok
      · rw [if_neg hst] at hok
        simp only [Except.ok.injEq, Prod.mk.injEq] at hok
        exact ⟨o, rfl, by simpa using hst, hok.1.symm⟩

theorem complete_order_ok_inversion (db : DB) (h oid now : Nat) (db2 : DB) (m : String)
    (hok : complete_order db h oid now = .ok (db2, m)) :
    ∃ o, db.orders.find? (fun u => u.hotelId == h && u.id == oid) = some o ∧
      o.status = "accepted" ∧
      db2 = { db with orders := db.orders.map (fun u =>
        if u.id == o.id then { o with status := "completed", updatedAt := now } else u) } := by
  cases hfind : db.orders.find? (fun u => u.hotelId == h && u.id == oid) with
  | none => simp only [complete_order, hfind] at hok; exact Except.noConfusion hok
  | some o =>
      simp only [complete_order, hfind] at hok
      by_cases hst : o.status ≠ "accepted"
      · rw [if_pos hst] at hok; exact Except.noConfusion hok
      · rw [if_neg hst] at hok
        simp only [Except.ok.injEq, Prod.mk.injEq] at hok
        exact ⟨o, rfl, by simpa using hst, hok.1.symm⟩

theorem request_payment_ok_inversion (db : DB) (h oid now : Nat) (db2 : DB) (m : String)
    (hok : request_payment db h oid now = .ok (db2, m)) :
    (db2 = db ∧
      ∃ o, db.orders.find? (fun u => u.hotelId == h && u.id == oid) = some o ∧
        o.status = "paid") ∨
    (∃ o, db.orders.find? (fun u => u.hotelId == h && u.id == oid) = some o ∧
      o.status = "completed" ∧ db2 = processPayment db h oid o now) := by
  cases hfind : db.orders.find? (fun u => u.hotelId == h && u.id == oid) with
  | none => simp only [request_payment, hfind] at hok; exact Except.noConfusion hok
  | some o =>
      simp only [request_payment, hfind] at hok
      by_cases hp : o.status = "paid"
      · rw [if_pos hp] at hok
        simp only [Except.ok.injEq, Prod.mk.injEq] at hok
        exact Or.inl ⟨hok.1.symm, o, rfl, hp⟩
      · rw [if_neg hp] at hok
        by_cases hc : o.status ≠ "completed"
        · rw [if_pos hc] at hok; exact Except.noConfusion hok
        · rw [if_neg hc] at hok
          simp only [Except.ok.injEq, Prod.mk.injEq] at hok
          exact Or.inr ⟨o, rfl, by simpa using hc, hok.1.symm⟩

theorem cancel_order_ok_inversion (db : DB) (h oid now : Nat) (db2 : DB) (m : String)
    (hok : cancel_order db h oid now = .ok (db2, m)) :
    ∃ o, db.orders.find? (fun u => u.hotelId == h && u.id == oid) = some o ∧
      o.status = "pending" ∧
      db2 = { db with
        orders := db.orders.map (fun u =>
          if u.id == o.id then { o with status := "cancelled", updatedAt := now } else u),
        tables :=
          match db.tables.find? (fun t => t.tableNumber == o.tableNumber) with
          | some t =>
              if t.currentOrderId == some o.id then
                db.tables.map (fun u =>
                  if u.id == t.id then
                    { u with isOccupied := false, currentOrderId := none,
                             updatedAt := now }
                  else u)
              else db.tables
          | none => db.tables } := by
  cases hfind : db.orders.find? (fun u => u.hotelId == h && u.id == oid) with
  | none => simp only [cancel_order, hfind] at hok; exact Except.noConfusion hok
  | some o =>
      simp only [cancel_order, hfind] at hok
      by_cases hst : o.status ≠ "pending"
      · rw [if_pos hst] at hok; exact Except.noConfusion hok
      · rw [if_neg hst] at hok
        simp only [Except.ok.injEq, Prod.mk.injEq] at hok
        exact ⟨o, rfl, by simpa using hst, hok.1.symm⟩

theorem mark_order_paid_ok_inversion (db : DB) (oid now : Nat) (db2 : DB) (m : String)
    (hok : mark_order_paid db oid now = .ok (db2, m)) :
    ∃ o, db.orders.find? (fun u => u.id == oid) = some o ∧
      db2 = { db with orders := db.orders.map (fun u =>
        if u.id == o.id then { o with status := "paid", updatedAt := now } else u) } := by
  cases hfind : db.orders.find? (fun u => u.id == oid) with
  | none => simp only [mark_order_paid, hfind] at hok; exact Except.noConfusion hok
  | some o =>
      simp only [mark_order_paid, hfind] at hok
      simp only [Except.ok.injEq, Prod.mk.injEq] at hok
      exact ⟨o, rfl, hok.1.symm⟩

theorem resolveOrderPerson_shape (db : DB) (h : Nat) (ord : OrderCreate)
    (pid : Option Nat) (now : Nat) :
    ∃ ps np, (resolveOrderPerson db h ord pid now).1 =
      { db with persons := ps, nextPersonId := np } := by
  unfold resolveOrderPerson
  cases hpt : personIdTruthy pid <;> simp only [hpt, Bool.not_false, Bool.not_true, if_true,
    if_false, Bool.false_eq_true, Bool.true_eq_false, ite_true, ite_false]
  · split
    · exact ⟨_, _, rfl⟩
    · exact ⟨_, _, rfl⟩
  · split
    · exact ⟨_, _, rfl⟩
    · exact ⟨_, _, rfl⟩

theorem foldl_addOrderItem_fixed (h oid : Nat) (items : List OrderItemCreate) (acc : DB) :
    (items.foldl (addOrderItem h oid) acc).orders = acc.orders ∧
    (items.foldl (addOrderItem h oid) acc).persons = acc.persons ∧
    (items.foldl (addOrderItem h oid) acc).tables = acc.tables := by
  induction items generalizing acc with
  | nil => exact ⟨rfl, rfl, rfl⟩
  | cons it rest ih =>
      have hstep : (addOrderItem h oid acc it).orders = acc.orders ∧
          (addOrderItem h oid acc it).persons = acc.persons ∧
          (addOrderItem h oid acc it).tables = acc.tables := by
        unfold addOrderItem
        split
        · exact ⟨rfl, rfl, rfl⟩
        · exact ⟨rfl, rfl, rfl⟩
      obtain ⟨h1, h2, h3⟩ := ih (addOrderItem h oid acc it)
      rw [List.foldl_cons]
      exact ⟨h1.trans hstep.1, h2.trans hstep.2.1, h3.trans hstep.2.2⟩

theorem create_order_orders_eq (db : DB) (h : Nat) (ord : OrderCreate)
    (pid : Option Nat) (now : Nat) :
    (create_order db h ord pid now).1.orders =
      db.orders ++ [(create_order db h ord pid now).2] ∧
    (create_order db h ord pid now).2.status = "pending" := by
  obtain ⟨ps, np, hres⟩ := resolveOrderPerson_shape db h ord pid now
  constructor
  · simp only [create_order]
    rw [(foldl_addOrderItem_fixed _ _ _ _).1]
    split
    · rw [hres]
    · rw [hres]
  · rfl

/-- C6 (amended): chef accept moves an order only along pending→accepted,
chef complete only along accepted→completed, customer payment only along
completed→paid, customer cancel only along pending→cancelled, and order
placement leaves existing order statuses unchanged (the new order starting
as pending); the admin mark-paid endpoint however sets the status of any
order to paid regardless of its current status, so a paid or cancelled
order can change status through it. -/
theorem order_status_transitions :
    (∀ (db : DB) (h oid now : Nat) (db2 : DB) (m : String),
        (db.orders.map OrderRow.id).Nodup → accept_order db h oid now = .ok (db2, m) →
        ∀ q ∈ db.orders, ∃ q2 ∈ db2.orders, q2.id = q.id ∧
          (q2.status = q.status ∨ (q.status = "pending" ∧ q2.status = "accepted"))) ∧
    (∀ (db : DB) (h oid now : Nat) (db2 : DB) (m : String),
        (db.orders.map OrderRow.id).Nodup → complete_order db h oid now = .ok (db2, m) →
        ∀ q ∈ db.orders, ∃ q2 ∈ db2.orders, q2.id = q.id ∧
          (q2.status = q.status ∨ (q.status = "accepted" ∧ q2.status = "completed"))) ∧
    (∀ (db : DB) (h oid now : Nat) (db2 : DB) (m : String),
        (db.orders.map OrderRow.id).Nodup → request_payment db h oid now = .ok (db2, m) →
        ∀ q ∈ db.orders, ∃ q2 ∈ db2.orders, q2.id = q.id ∧
          (q2.status = q.status ∨ (q.status = "completed" ∧ q2.status = "paid"))) ∧
    (∀ (db : DB) (h oid now : Nat) (db2 : DB) (m : String),
        (db.orders.map OrderRow.id).Nodup → cancel_order db h oid now = .ok (db2, m) →
        ∀ q ∈ db.orders, ∃ q2 ∈ db2.orders, q2.id = q.id ∧
          (q2.status = q.status ∨ (q.status = "pending" ∧ q2.status = "cancelled"))) ∧
    (∀ (db : DB) (oid now : Nat) (db2 : DB) (m : String),
        (db.orders.map OrderRow.id).Nodup → mark_order_paid db oid now = .ok (db2, m) →
        ∀ q ∈ db.orders, ∃ q2 ∈ db2.orders, q2.id = q.id ∧
          (q2.status = q.status ∨ q2.status = "paid")) ∧
    (∀ (db : DB) (h : Nat) (ord : OrderCreate) (pid : Option Nat) (now : Nat),
        (∀ q ∈ db.orders, q ∈ (create_order db h ord pid now).1.orders) ∧
        (create_order db h ord pid now).2.status = "pending") := by
  refine ⟨?_, ?_, ?_, ?_, ?_, ?_⟩
  · intro db h oid now db2 m hnd hok q hq
    obtain ⟨o, hfind, hst, hdb2⟩ := accept_order_ok_inversion db h oid now db2 m hok
    have ho : o ∈ db.orders := (mem_of_find?_pred hfind).1
    obtain ⟨q2, hq2mem, hcase⟩ := orders_update_shape db.orders o
      { o with status := "accepted", updatedAt := now } hnd ho q hq
    refine ⟨q2, ?_, ?_⟩
    · rw [hdb2]; exact hq2mem
    · rcases hcase with rfl | ⟨rfl, rfl⟩
      · exact ⟨rfl, Or.inl rfl⟩
      · exact ⟨rfl, Or.inr ⟨hst, rfl⟩⟩
  · intro db h oid now db2 m hnd hok q hq
    obtain ⟨o, hfind, hst, hdb2⟩ := complete_order_ok_inversion db h oid now db2 m hok
    have ho : o ∈ db.orders := (mem_of_find?_pred hfind).1
    obtain ⟨q2, hq2mem, hcase⟩ := orders_update_shape db.orders o
      { o with status := "completed", updatedAt := now } hnd ho q hq
    refine ⟨q2, ?_, ?_⟩
    · rw [hdb2]; exact hq2mem
    · rcases hcase with rfl | ⟨rfl, rfl⟩
      · exact ⟨rfl, Or.inl rfl⟩
      · exact ⟨rfl, Or.inr ⟨hst, rfl⟩⟩
  · intro db h oid now db2 m hnd hok q hq
    rcases request_payment_ok_inversion db h oid now db2 m hok with
      ⟨hdb2, _⟩ | ⟨o, hfind, hst, hdb2⟩
    · exact ⟨q, by rw [hdb2]; exact hq, rfl, Or.inl rfl⟩
    · have ho : o ∈ db.orders := (mem_of_find?_pred hfind).1
      obtain ⟨q2, hq2mem, hcase⟩ := orders_update_shape db.orders o
        (paidOrder db h o now) hnd ho q hq
      refine ⟨q2, ?_, ?_⟩
      · rw [hdb2]; exact hq2mem
      · rcases hcase with rfl | ⟨rfl, rfl⟩
        · exact ⟨rfl, Or.inl rfl⟩
        · exact ⟨rfl, Or.inr ⟨hst, rfl⟩⟩
  · intro db h oid now db2 m hnd hok q hq
    obtain ⟨o, hfind, hst, hdb2⟩ := cancel_order_ok_inversion db h oid now db2 m hok
    have ho : o ∈ db.orders := (mem_of_find?_pred hfind).1
    obtain ⟨q2, hq2mem, hcase⟩ := orders_update_shape db.orders o
      { o with status := "cancelled", updatedAt := now } hnd ho q hq
    refine ⟨q2, ?_, ?_⟩
    · rw [hdb2]; exact hq2mem
    · rcases hcase with rfl | ⟨rfl, rfl⟩
      · exact ⟨rfl, Or.inl rfl⟩
      · exact ⟨rfl, Or.inr ⟨hst, rfl⟩⟩
  · intro db oid now db2 m hnd hok q hq
    obtain ⟨o, hfind, hdb2⟩ := mark_order_paid_ok_inversion db oid now db2 m hok
    have ho : o ∈ db.orders := (mem_of_find?_pred hfind).1
    obtain ⟨q2, hq2mem, hcase⟩ := orders_update_shape db.orders o
      { o with status := "paid", updatedAt := now } hnd ho q hq
    refine ⟨q2, ?_, ?_⟩
    · rw [hdb2]; exact hq2mem
    · rcases hcase with rfl | ⟨rfl, rfl⟩
      · exact ⟨rfl, Or.inl rfl⟩
      · exact ⟨rfl, Or.inr rfl⟩
  · intro db h ord pid now
    refine ⟨?_, (create_order_orders_eq db h ord pid now).2⟩
    intro q hq
    rw [(create_order_orders_eq db h ord pid now).1]
    exact List.mem_append_left _ hq

/-- Convenience order row for witness states. -/
def mkOrder (oid tn : Nat) (st : String) : OrderRow :=
  { id := oid, hotelId := 1, tableNumber := tn, uniqueId := "w", personId := none,
    status := st, totalAmount := none, subtotalAmount := none,
    loyaltyDiscountAmount := 0, selectionOfferDiscountAmount := 0,
    loyaltyDiscountPercentage := 0, createdAt := 0, updatedAt := 0 }

/-- Witness state for C6: one order in each reachable status. -/
def dbC6w : DB :=
  { dishes := [], persons := [],
    orders := [mkOrder 1 1 "pending", mkOrder 2 2 "accepted", mkOrder 3 3 "completed",
               mkOrder 4 4 "pending", mkOrder 5 5 "cancelled"],
    orderItems := [], tables := [], loyaltyTiers := [], selectionOffers := [],
    otpRequests := [], nextPersonId := 1, nextOrderId := 6, nextOrderItemId := 1 }

/-- `dbC6w` after the chef accepts order 1. -/
def dbC6wAcc : DB :=
  { dbC6w with orders :=
      [{ mkOrder 1 1 "pending" with status := "accepted", updatedAt := 3 },
       mkOrder 2 2 "accepted", mkOrder 3 3 "completed", mkOrder 4 4 "pending",
       mkOrder 5 5 "cancelled"] }

/-- `dbC6w` after the chef completes order 2. -/
def dbC6wCom : DB :=
  { dbC6w with orders :=
      [mkOrder 1 1 "pending",
       { mkOrder 2 2 "accepted" with status := "completed", updatedAt := 4 },
       mkOrder 3 3 "completed", mkOrder 4 4 "pending", mkOrder 5 5 "cancelled"] }

/-- `dbC6w` after the customer cancels order 4. -/
def dbC6wCan : DB :=
  { dbC6w with orders :=
      [mkOrder 1 1 "pending", mkOrder 2 2 "accepted", mkOrder 3 3 "completed",
       { mkOrder 4 4 "pending" with status := "cancelled", updatedAt := 5 },
       mkOrder 5 5 "cancelled"] }

/-- `dbC6w` after the admin marks cancelled order 5 paid. -/
def dbC6wMp : DB :=
  { dbC6w with orders :=
      [mkOrder 1 1 "pending", mkOrder 2 2 "accepted", mkOrder 3 3 "completed",
       mkOrder 4 4 "pending",
       { mkOrder 5 5 "cancelled" with status := "paid", updatedAt := 6 }] }

/-- Empty order-creation body for witness runs. -/
def ordC6w : OrderCreate :=
  { tableNumber := 7, uniqueId := "z", items := [], username := none, password := none }

/-- Witness for C6 at concrete runs of all five status-touching
endpoints. -/
theorem order_status_transitions_witness :
    (∃ q2 ∈ dbC6wAcc.orders, q2.id = 1 ∧
      (q2.status = "pending" ∨ ("pending" = "pending" ∧ q2.status = "accepted"))) ∧
    (∃ q2 ∈ dbC6wCom.orders, q2.id = 2 ∧
      (q2.status = "accepted" ∨ ("accepted" = "accepted" ∧ q2.status = "completed"))) ∧
    (∃ q2 ∈ (processPayment dbC6w 1 3 (mkOrder 3 3 "completed") 9).orders, q2.id = 3 ∧
      (q2.status = "completed" ∨ ("completed" = "completed" ∧ q2.status = "paid"))) ∧
    (∃ q2 ∈ dbC6wCan.orders, q2.id = 4 ∧
      (q2.status = "pending" ∨ ("pending" = "pending" ∧ q2.status = "cancelled"))) ∧
    (∃ q2 ∈ dbC6wMp.orders, q2.id = 5 ∧ (q2.status = "cancelled" ∨ q2.status = "paid")) ∧
    mkOrder 1 1 "pending" ∈ (create_order dbC6w 1 ordC6w none 10).1.orders := by
  refine ⟨?_, ?_, ?_, ?_, ?_, ?_⟩
  · exact order_status_transitions.1 dbC6w 1 1 3 dbC6wAcc "Order accepted successfully"
      (by decide) rfl (mkOrder 1 1 "pending") (by decide)
  · exact order_status_transitions.2.1 dbC6w 1 2 4 dbC6wCom "Order marked as completed"
      (by decide) rfl (mkOrder 2 2 "accepted") (by decide)
  · exact order_status_transitions.2.2.1 dbC6w 1 3 9
      (processPayment dbC6w 1 3 (mkOrder 3 3 "completed") 9)
      "Payment completed successfully" (by decide) rfl (mkOrder 3 3 "completed") (by decide)
  · exact order_status_transitions.2.2.2.1 dbC6w 1 4 5 dbC6wCan
      "Order cancelled successfully" (by decide) rfl (mkOrder 4 4 "pending") (by decide)
  · exact order_status_transitions.2.2.2.2.1 dbC6w 5 6 dbC6wMp "Order marked as paid"
      (by decide) rfl (mkOrder 5 5 "cancelled") (by decide)
  · exact (order_status_transitions.2.2.2.2.2 dbC6w 1 ordC6w none 10).1
      (mkOrder 1 1 "pending") (by decide)

/-! ## C7: 400 on missing tenant context and invalid transitions -/

/-- State with a paid order for the C7 counterexample. -/
def dbC7 : DB :=
  { dishes := [], persons := [], orders := [mkOrder 1 1 "paid"], orderItems := [],
    tables := [], loyaltyTiers := [], selectionOffers := [], otpRequests := [],
    nextPersonId := 1, nextOrderId := 2, nextOrderItemId := 1 }

/-- C7 counterexample: paying an order whose status is `paid` — a
non-completed status — does not fail with HTTP 400; the handler returns a
success payload with the state unchanged. -/
theorem paying_paid_order_returns_ok :
    dbC7.orders.map OrderRow.status = ["paid"] ∧
    request_payment dbC7 1 1 2 = .ok (dbC7, "Order is already paid") :=
  ⟨rfl, rfl⟩

/-- C7 (amended): a request with no bound hotel context (no session entry,
or a falsy hotel id) fails with HTTP 400; accepting a non-pending order,
completing a non-accepted order, paying an order that is neither completed
nor already paid, and cancelling a non-pending order all fail with HTTP 400
(an error response carries no state change in this embedding, so the order
is left unchanged); but paying an already-paid order returns success with
the state unchanged instead of a 400. -/
theorem error_handling_400 :
    (∀ (sessions : List (String × Option Nat)) (sid : String),
        get_session_hotel_id sessions sid = none ∨
          get_session_hotel_id sessions sid = some 0 →
        get_hotel_id_from_request sessions sid = .error ⟨400, "No hotel context set"⟩) ∧
    (∀ (db : DB) (h oid now : Nat) (o : OrderRow),
        db.orders.find? (fun u => u.hotelId == h && u.id == oid) = some o →
        o.status ≠ "pending" →
        accept_order db h oid now = .error ⟨400, "Order is not in pending status"⟩) ∧
    (∀ (db : DB) (h oid now : Nat) (o : OrderRow),
        db.orders.find? (fun u => u.hotelId == h && u.id == oid) = some o →
        o.status ≠ "accepted" →
        complete_order db h oid now =
          .error ⟨400, "Order must be accepted before it can be completed"⟩) ∧
    (∀ (db : DB) (h oid now : Nat) (o : OrderRow),
        db.orders.find? (fun u => u.hotelId == h && u.id == oid) = some o →
        o.status ≠ "completed" → o.status ≠ "paid" →
        request_payment db h oid now =
          .error ⟨400, "Order must be completed before payment can be processed"⟩) ∧
    (∀ (db : DB) (h oid now : Nat) (o : OrderRow),
        db.orders.find? (fun u => u.hotelId == h && u.id == oid) = some o →
        o.status = "paid" →
        request_payment db h oid now = .ok (db, "Order is already paid")) ∧
    (∀ (db : DB) (h oid now : Nat) (o : OrderRow),
        db.orders.find? (fun u => u.hotelId == h && u.id == oid) = some o →
        o.status ≠ "pending" →
        cancel_order db h oid now =
          .error ⟨400, "Only pending orders can be cancelled"⟩) := by
  refine ⟨?_, ?_, ?_, ?_, ?_, ?_⟩
  · intro sessions sid hmiss
    rcases hmiss with hnone | hzero
    · unfold get_hotel_id_from_request
      rw [hnone]
    · unfold get_hotel_id_from_request
      rw [hzero]
      simp
  · intro db h oid now o hfind hst
    simp only [accept_order, hfind]
    rw [if_pos hst]
  · intro db h oid now o hfind hst
    simp only [complete_order, hfind]
    rw [if_pos hst]
  · intro db h oid now o hfind hst hpaid
    simp only [request_payment, hfind]
    rw [if_neg hpaid, if_pos hst]
  · intro db h oid now o hfind hst
    simp only [request_payment, hfind]
    rw [if_pos hst]
  · intro db h oid now o hfind hst
    simp only [cancel_order, hfind]
    rw [if_pos hst]

/-- Witness state for C7: orders in each status that makes a transition
request invalid. -/
def dbC7w : DB :=
  { dishes := [], persons := [],
    orders := [mkOrder 1 1 "completed", mkOrder 2 2 "pending", mkOrder 3 3 "cancelled",
               mkOrder 4 4 "paid", mkOrder 5 5 "accepted"],
    orderItems := [], tables := [], loyaltyTiers := [], selectionOffers := [],
    otpRequests := [], nextPersonId := 1, nextOrderId := 6, nextOrderItemId := 1 }

/-- Witness for C7 at concrete invalid requests. -/
theorem error_handling_400_witness :
    get_hotel_id_from_request [("s", none)] "s" =
      .error ⟨400, "No hotel context set"⟩ ∧
    accept_order dbC7w 1 1 2 = .error ⟨400, "Order is not in pending status"⟩ ∧
    complete_order dbC7w 1 2 2 =
      .error ⟨400, "Order must be accepted before it can be completed"⟩ ∧
    request_payment dbC7w 1 3 2 =
      .error ⟨400, "Order must be completed before payment can be processed"⟩ ∧
    request_payment dbC7w 1 4 2 = .ok (dbC7w, "Order is already paid") ∧
    cancel_order dbC7w 1 5 2 = .error ⟨400, "Only pending orders can be cancelled"⟩ := by
  refine ⟨?_, ?_, ?_, ?_, ?_, ?_⟩
  · exact error_handling_400.1 [("s", none)] "s" (Or.inl rfl)
  · exact error_handling_400.2.1 dbC7w 1 1 2 (mkOrder 1 1 "completed") rfl (by decide)
  · exact error_handling_400.2.2.1 dbC7w 1 2 2 (mkOrder 2 2 "pending") rfl (by decide)
  · exact error_handling_400.2.2.2.1 dbC7w 1 3 2 (mkOrder 3 3 "cancelled") rfl
      (by decide) (by decide)
  · exact error_handling_400.2.2.2.2.1 dbC7w 1 4 2 (mkOrder 4 4 "paid") rfl rfl
  · exact error_handling_400.2.2.2.2.2 dbC7w 1 5 2 (mkOrder 5 5 "accepted") rfl (by decide)

/-! ## C2: the paid total formula -/

/-- C2: when payment is requested on a completed order, the stored row has
status `paid`, its stored subtotal is the sum over the order's items of
dish price times quantity, and its stored final total is that subtotal
minus the stored loyalty discount amount minus the stored selection-offer
discount amount, floored at zero. -/
theorem payment_total_formula (db : DB) (h oid now : Nat) (db2 : DB) (m : String)
    (o : OrderRow)
    (hfind : db.orders.find? (fun u => u.hotelId == h && u.id == oid) = some o)
    (hst : o.status = "completed")
    (hok : request_payment db h oid now = .ok (db2, m)) :
    ∃ o2 ∈ db2.orders, o2.id = oid ∧ o2.status = "paid" ∧
      o2.subtotalAmount = some (computeSubtotal db o.id) ∧
      o2.totalAmount = some (max 0 (computeSubtotal db o.id -
        o2.loyaltyDiscountAmount - o2.selectionOfferDiscountAmount)) := by
  rcases request_payment_ok_inversion db h oid now db2 m hok with
    ⟨_, o', hfind', hp⟩ | ⟨o', hfind', _, hdb2⟩
  · rw [hfind] at hfind'
    cases hfind'
    rw [hst] at hp
    exact absurd hp (by decide)
  · rw [hfind] at hfind'
    cases hfind'
    refine ⟨paidOrder db h o now, ?_, ?_, rfl, rfl, rfl⟩
    · rw [hdb2]
      refine List.mem_map.mpr ⟨o, (mem_of_find?_pred hfind).1, ?_⟩
      simp
    · have hpred := (mem_of_find?_pred hfind).2
      simp only [Bool.and_eq_true, beq_iff_eq] at hpred
      exact hpred.2

/-- Witness base state for the payment claims: a completed order with two
items (subtotal 120), a registered person with 5 visits, loyalty tiers at
3 and 5 visits, and three selection offers with thresholds 50, 100, 200. -/
def dbPay : DB :=
  { dishes :=
      [ { id := 1, hotelId := 1, name := "Dosa", category := none, price := 40,
          isOffer := 0, isSpecial := 0, visibility := 1 },
        { id := 2, hotelId := 1, name := "Idli", category := none, price := 20,
          isOffer := 0, isSpecial := 0, visibility := 1 } ],
    persons :=
      [ { id := 1, hotelId := 1, username := some "alice", password := some "pw",
          phoneNumber := none, visitCount := 5, lastVisit := 0 },
        { id := 2, hotelId := 1, username := some "bob", password := some "pw",
          phoneNumber := none, visitCount := 4, lastVisit := 0 } ],
    orders :=
      [ { id := 1, hotelId := 1, tableNumber := 5, uniqueId := "p", personId := some 1,
          status := "completed", totalAmount := none, subtotalAmount := none,
          loyaltyDiscountAmount := 0, selectionOfferDiscountAmount := 0,
          loyaltyDiscountPercentage := 0, createdAt := 0, updatedAt := 0 } ],
    orderItems :=
      [ { id := 1, hotelId := 1, orderId := 1, dishId := 1, quantity := 2, price := 40,
          remarks := none },
        { id := 2, hotelId := 1, orderId := 1, dishId := 2, quantity := 2, price := 20,
          remarks := none } ],
    tables :=
      [ { id := 1, hotelId := 1, tableNumber := 5, isOccupied := true,
          currentOrderId := some 1, updatedAt := 0 } ],
    loyaltyTiers :=
      [ { id := 1, hotelId := 1, visitCount := 3, discountPercentage := 50,
          isActive := true },
        { id := 2, hotelId := 1, visitCount := 5, discountPercentage := 10,
          isActive := true } ],
    selectionOffers :=
      [ { id := 1, hotelId := 1, minAmount := 50, discountAmount := 5, isActive := true },
        { id := 2, hotelId := 1, minAmount := 100, discountAmount := 12, isActive := true },
        { id := 3, hotelId := 1, minAmount := 200, discountAmount := 100, isActive := true } ],
    otpRequests := [], nextPersonId := 2, nextOrderId := 2, nextOrderItemId := 3 }

/-- The completed order of `dbPay`. -/
def ordPay : OrderRow :=
  { id := 1, hotelId := 1, tableNumber := 5, uniqueId := "p", personId := some 1,
    status := "completed", totalAmount := none, subtotalAmount := none,
    loyaltyDiscountAmount := 0, selectionOfferDiscountAmount := 0,
    loyaltyDiscountPercentage := 0, createdAt := 0, updatedAt := 0 }

/-- Witness for C2 at the concrete payment run. -/
theorem payment_total_formula_witness :
    ∃ o2 ∈ (processPayment dbPay 1 1 ordPay 7).orders, o2.id = 1 ∧ o2.status = "paid" ∧
      o2.subtotalAmount = some (computeSubtotal dbPay 1) ∧
      o2.totalAmount = some (max 0 (computeSubtotal dbPay 1 -
        o2.loyaltyDiscountAmount - o2.selectionOfferDiscountAmount)) :=
  payment_total_formula dbPay 1 1 7 (processPayment dbPay 1 1 ordPay 7)
    "Payment completed successfully" ordPay rfl rfl rfl

/-! ## C9: loyalty discount applies on exact visit-count match only -/

/-- C9: the loyalty discount of the payment computation follows the
exact-match rule: no linked person means zero; a linked person for whom no
active tier of the hotel has visit-count key equal to the person's current
visit count (in particular when every tier sits below it) means zero; an
exact active match supplies subtotal times the tier's percentage over a
hundred; and `request_payment` stores exactly this amount and percentage
on the paid row. -/
theorem loyalty_discount_exact_match :
    (∀ (db : DB) (h : Nat) (sub : Rat), computeLoyalty db h none sub = (0, 0)) ∧
    (∀ (db : DB) (h pid : Nat) (sub : Rat) (p : PersonRow), pid ≠ 0 →
        db.persons.find? (fun q => q.id == pid) = some p →
        (∀ t ∈ db.loyaltyTiers, t.hotelId = h → t.isActive = true →
          t.visitCount ≠ p.visitCount) →
        computeLoyalty db h (some pid) sub = (0, 0)) ∧
    (∀ (db : DB) (h pid : Nat) (sub : Rat) (p : PersonRow) (tier : LoyaltyRow), pid ≠ 0 →
        db.persons.find? (fun q => q.id == pid) = some p →
        db.loyaltyTiers.find? (fun t =>
          t.hotelId == h && t.visitCount == p.visitCount && t.isActive) = some tier →
        computeLoyalty db h (some pid) sub =
          (sub * (tier.discountPercentage / 100), tier.discountPercentage)) ∧
    (∀ (db : DB) (h oid now : Nat) (db2 : DB) (m : String) (o : OrderRow),
        db.orders.find? (fun u => u.hotelId == h && u.id == oid) = some o →
        o.status = "completed" →
        request_payment db h oid now = .ok (db2, m) →
        ∃ o2 ∈ db2.orders, o2.id = oid ∧
          o2.loyaltyDiscountAmount =
            (computeLoyalty db h o.personId (computeSubtotal db o.id)).1 ∧
          o2.loyaltyDiscountPercentage =
            (computeLoyalty db h o.personId (computeSubtotal db o.id)).2) := by
  refine ⟨?_, ?_, ?_, ?_⟩
  · intro db h sub; rfl
  · intro db h pid sub p hpid hp hno
    have hnone : db.loyaltyTiers.find? (fun t =>
        t.hotelId == h && t.visitCount == p.visitCount && t.isActive) = none := by
      rw [List.find?_eq_none]
      intro t ht hpred
      simp only [Bool.and_eq_true, beq_iff_eq] at hpred
      exact hno t ht hpred.1.1 hpred.2 hpred.1.2
    simp only [computeLoyalty]
    rw [if_neg hpid]
    simp only [hp, hnone]
  · intro db h pid sub p tier hpid hp htier
    simp only [computeLoyalty]
    rw [if_neg hpid]
    simp only [hp, htier]
  · intro db h oid now db2 m o hfind hst hok
    rcases request_payment_ok_inversion db h oid now db2 m hok with
      ⟨_, o', hfind', hp⟩ | ⟨o', hfind', _, hdb2⟩
    · rw [hfind] at hfind'
      cases hfind'
      rw [hst] at hp
      exact absurd hp (by decide)
    · rw [hfind] at hfind'
      cases hfind'
      refine ⟨paidOrder db h o now, ?_, ?_, rfl, rfl⟩
      · rw [hdb2]
        refine List.mem_map.mpr ⟨o, (mem_of_find?_pred hfind).1, ?_⟩
        simp
      · have hpred := (mem_of_find?_pred hfind).2
        simp only [Bool.and_eq_true, beq_iff_eq] at hpred
        exact hpred.2

/-- Witness for C9 at concrete states: person 2 has 4 visits and no
matching tier, person 1 has 5 visits matching the active 10-percent tier,
and the payment run stores the computed amounts. -/
theorem loyalty_discount_exact_match_witness :
    computeLoyalty dbPay 1 none 120 = (0, 0) ∧
    computeLoyalty dbPay 1 (some 2) 120 = (0, 0) ∧
    computeLoyalty dbPay 1 (some 1) 120 = (120 * ((10 : Rat) / 100), 10) ∧
    ∃ o2 ∈ (processPayment dbPay 1 1 ordPay 7).orders, o2.id = 1 ∧
      o2.loyaltyDiscountAmount =
        (computeLoyalty dbPay 1 ordPay.personId (computeSubtotal dbPay 1)).1 ∧
      o2.loyaltyDiscountPercentage =
        (computeLoyalty dbPay 1 ordPay.personId (computeSubtotal dbPay 1)).2 := by
  refine ⟨loyalty_discount_exact_match.1 dbPay 1 120, ?_, ?_, ?_⟩
  · exact loyalty_discount_exact_match.2.1 dbPay 1 2 120
      ⟨2, 1, some "bob", some "pw", none, 4, 0⟩ (by decide) rfl (by decide)
  · exact loyalty_discount_exact_match.2.2.1 dbPay 1 1 120
      ⟨1, 1, some "alice", some "pw", none, 5, 0⟩ ⟨2, 1, 5, 10, true⟩
      (by decide) rfl rfl
  · exact loyalty_discount_exact_match.2.2.2 dbPay 1 1 7
      (processPayment dbPay 1 1 ordPay 7) "Payment completed successfully" ordPay
      rfl rfl rfl

/-! ## C10: selection offer with the greatest applicable threshold -/

theorem selectBestOffer_isSome (l : List SelectionOfferRow) (hne : l ≠ []) :
    ∃ b, selectBestOffer l = some b := by
  cases l with
  | nil => exact absurd rfl hne
  | cons s rest =>
      cases h : selectBestOffer rest with
      | none => exact ⟨s, by simp only [selectBestOffer, h]⟩
      | some r =>
          by_cases hlt : s.minAmount < r.minAmount
          · exact ⟨r, by simp only [selectBestOffer, h]; rw [if_pos hlt]⟩
          · exact ⟨s, by simp only [selectBestOffer, h]; rw [if_neg hlt]⟩

theorem selectBestOffer_spec (l : List SelectionOfferRow) (b : SelectionOfferRow)
    (hb : selectBestOffer l = some b) :
    b ∈ l ∧ ∀ u ∈ l, u.minAmount ≤ b.minAmount := by
  induction l generalizing b with
  | nil => exact Option.noConfusion hb
  | cons s rest ih =>
      cases h : selectBestOffer rest with
      | none =>
          have hrest : rest = [] := by
            cases hr : rest with
            | nil => rfl
            | cons a t =>
                obtain ⟨x, hx⟩ := selectBestOffer_isSome (a :: t) (by simp)
                rw [hr, hx] at h
                exact Option.noConfusion h
          subst hrest
          simp only [selectBestOffer, h] at hb
          injection hb with hsb
          subst hsb
          refine ⟨List.mem_singleton_self s, ?_⟩
          intro u hu
          rw [List.mem_singleton] at hu
          subst hu
          exact le_refl _
      | some r =>
          simp only [selectBestOffer, h] at hb
          obtain ⟨hrmem, hrmax⟩ := ih r h
          by_cases hlt : s.minAmount < r.minAmount
          · rw [if_pos hlt] at hb
            injection hb with hrb
            subst hrb
            refine ⟨List.mem_cons_of_mem _ hrmem, ?_⟩
            intro u hu
            rcases List.mem_cons.mp hu with rfl | hu2
            · exact le_of_lt hlt
            · exact hrmax u hu2
          · rw [if_neg hlt] at hb
            injection hb with hsb
            subst hsb
            refine ⟨List.mem_cons_self _ _, ?_⟩
            intro u hu
            rcases List.mem_cons.mp hu with rfl | hu2
            · exact le_refl _
            · exact (hrmax u hu2).trans (not_lt.mp hlt)

/-- C10: with no active offer at or below the subtotal the selection
discount is zero; with at least one eligible offer, the discount is the
flat discount amount of an eligible offer whose threshold is greatest
among the eligible ones; and `request_payment` stores exactly this
amount on the paid row. -/
theorem selection_offer_greatest_threshold :
    (∀ (db : DB) (h : Nat) (sub : Rat),
        (∀ s ∈ db.selectionOffers, s.hotelId = h → s.isActive = true →
          ¬ s.minAmount ≤ sub) →
        computeSelectionDiscount db h sub = 0) ∧
    (∀ (db : DB) (h : Nat) (sub : Rat) (s0 : SelectionOfferRow),
        s0 ∈ db.selectionOffers → s0.hotelId = h → s0.isActive = true →
        s0.minAmount ≤ sub →
        ∃ s, s ∈ db.selectionOffers ∧ s.hotelId = h ∧ s.isActive = true ∧
          s.minAmount ≤ sub ∧ computeSelectionDiscount db h sub = s.discountAmount ∧
          ∀ u ∈ db.selectionOffers, u.hotelId = h → u.isActive = true →
            u.minAmount ≤ sub → u.minAmount ≤ s.minAmount) ∧
    (∀ (db : DB) (h oid now : Nat) (db2 : DB) (m : String) (o : OrderRow),
        db.orders.find? (fun u => u.hotelId == h && u.id == oid) = some o →
        o.status = "completed" →
        request_payment db h oid now = .ok (db2, m) →
        ∃ o2 ∈ db2.orders, o2.id = oid ∧
          o2.selectionOfferDiscountAmount =
            computeSelectionDiscount db h (computeSubtotal db o.id)) := by
  refine ⟨?_, ?_, ?_⟩
  · intro db h sub hno
    have hfil : db.selectionOffers.filter (fun s =>
        s.hotelId == h && decide (s.minAmount ≤ sub) && s.isActive) = [] := by
      rw [List.filter_eq_nil_iff]
      intro s hs hpred
      simp only [Bool.and_eq_true, beq_iff_eq, decide_eq_true_eq] at hpred
      exact hno s hs hpred.1.1 hpred.2 hpred.1.2
    simp only [computeSelectionDiscount, hfil]
    rfl
  · intro db h sub s0 hs0 hh0 ha0 hle0
    have hs0e : s0 ∈ db.selectionOffers.filter (fun s =>
        s.hotelId == h && decide (s.minAmount ≤ sub) && s.isActive) := by
      rw [List.mem_filter]
      exact ⟨hs0, by simp [hh0, ha0, hle0]⟩
    obtain ⟨b, hb⟩ := selectBestOffer_isSome _ (List.ne_nil_of_mem hs0e)
    obtain ⟨hbmem, hbmax⟩ := selectBestOffer_spec _ b hb
    rw [List.mem_filter] at hbmem
    have hbpred := hbmem.2
    simp only [Bool.and_eq_true, beq_iff_eq, decide_eq_true_eq] at hbpred
    refine ⟨b, hbmem.1, hbpred.1.1, hbpred.2, hbpred.1.2, ?_, ?_⟩
    · simp only [computeSelectionDiscount, hb]
    · intro u hu huh hua hule
      have hue : u ∈ db.selectionOffers.filter (fun s =>
          s.hotelId == h && decide (s.minAmount ≤ sub) && s.isActive) := by
        rw [List.mem_filter]
        exact ⟨hu, by simp [huh, hua, hule]⟩
      exact hbmax u hue
  · intro db h oid now db2 m o hfind hst hok
    rcases request_payment_ok_inversion db h oid now db2 m hok with
      ⟨_, o', hfind', hp⟩ | ⟨o', hfind', _, hdb2⟩
    · rw [hfind] at hfind'
      cases hfind'
      rw [hst] at hp
      exact absurd hp (by decide)
    · rw [hfind] at hfind'
      cases hfind'
      refine ⟨paidOrder db h o now, ?_, ?_, rfl⟩
      · rw [hdb2]
        refine List.mem_map.mpr ⟨o, (mem_of_find?_pred hfind).1, ?_⟩
        simp
      · have hpred := (mem_of_find?_pred hfind).2
        simp only [Bool.and_eq_true, beq_iff_eq] at hpred
        exact hpred.2

/-- Witness for C10 at concrete states: subtotal 10 is below every
threshold (discount 0); subtotal 120 selects the threshold-100 offer; the
payment run stores the computed amount. -/
theorem selection_offer_greatest_threshold_witness :
    computeSelectionDiscount dbPay 1 10 = 0 ∧
    (∃ s, s ∈ dbPay.selectionOffers ∧ s.hotelId = 1 ∧ s.isActive = true ∧
      s.minAmount ≤ 120 ∧ computeSelectionDiscount dbPay 1 120 = s.discountAmount ∧
      ∀ u ∈ dbPay.selectionOffers, u.hotelId = 1 → u.isActive = true →
        u.minAmount ≤ 120 → u.minAmount ≤ s.minAmount) ∧
    ∃ o2 ∈ (processPayment dbPay 1 1 ordPay 7).orders, o2.id = 1 ∧
      o2.selectionOfferDiscountAmount =
        computeSelectionDiscount dbPay 1 (computeSubtotal dbPay 1) := by
  refine ⟨?_, ?_, ?_⟩
  · exact selection_offer_greatest_threshold.1 dbPay 1 10 (by decide)
  · exact selection_offer_greatest_threshold.2.1 dbPay 1 120
      ⟨1, 1, 50, 5, true⟩ (by decide) rfl rfl (by decide)
  · exact selection_offer_greatest_threshold.2.2 dbPay 1 1 7
      (processPayment dbPay 1 1 ordPay 7) "Payment completed successfully" ordPay
      rfl rfl rfl

/-! ## C3: visit-count discipline -/

theorem persons_counts_preserved (persons : List PersonRow) (p p2 : PersonRow)
    (hnd : (persons.map PersonRow.id).Nodup) (hp : p ∈ persons)
    (hid : p2.id = p.id) (hcnt : p2.visitCount = p.visitCount) :
    ∀ q ∈ persons, ∃ q2 ∈ persons.map (fun u => if u.id == p.id then p2 else u),
      q2.id = q.id ∧ q2.visitCount = q.visitCount := by
  intro q hq
  by_cases h : (q.id == p.id) = true
  · have hqp : q = p := List.inj_on_of_nodup_map hnd hq hp (by simpa using h)
    subst hqp
    exact ⟨p2, List.mem_map.mpr ⟨q, hq, by simp [h]⟩, hid, hcnt⟩
  · exact ⟨q, List.mem_map.mpr ⟨q, hq, by rw [if_neg h]⟩, rfl, rfl⟩

theorem login_user_ok_inversion (db : DB) (h : Nat) (un pw : String) (now : Nat)
    (db2 : DB) (r : PersonRow) (hok : login_user db h un pw now = .ok (db2, r)) :
    ∃ p, db.persons.find? (fun q => q.hotelId == h && q.username == some un) = some p ∧
      db2 = { db with persons := db.persons.map (fun q =>
        if q.id == p.id then { p with lastVisit := now } else q) } := by
  cases hfind : db.persons.find? (fun q => q.hotelId == h && q.username == some un) with
  | none => simp only [login_user, hfind] at hok; exact Except.noConfusion hok
  | some p =>
      simp only [login_user, hfind] at hok
      by_cases hpw : p.password ≠ some pw
      · rw [if_pos hpw] at hok; exact Except.noConfusion hok
      · rw [if_neg hpw] at hok
        simp only [Except.ok.injEq, Prod.mk.injEq] at hok
        exact ⟨p, rfl, hok.1.symm⟩

theorem create_order_persons_eq (db : DB) (h : Nat) (ord : OrderCreate)
    (pid : Option Nat) (now : Nat) :
    (create_order db h ord pid now).1.persons =
      (resolveOrderPerson db h ord pid now).1.persons ∧
    (create_order db h ord pid now).2.personId =
      (resolveOrderPerson db h ord pid now).2 := by
  constructor
  · simp only [create_order]
    rw [(foldl_addOrderItem_fixed _ _ _ _).2.1]
    split
    · rfl
    · rfl
  · rfl

theorem resolveOrderPerson_pid_found (db : DB) (h : Nat) (ord : OrderCreate)
    (pid now : Nat) (p : PersonRow) (hpid : pid ≠ 0)
    (hfind : db.persons.find? (fun q => q.hotelId == h && some q.id == some pid) = some p) :
    resolveOrderPerson db h ord (some pid) now =
      ({ db with persons := db.persons.map (fun q =>
          if q.id == p.id then { p with visitCount := p.visitCount + 1, lastVisit := now }
          else q) }, some pid) := by
  have hpt : (!(personIdTruthy (some pid))) = false := by
    simp [personIdTruthy, hpid]
  simp only [resolveOrderPerson, hpt, Bool.false_eq_true, if_false, hfind]

theorem resolveOrderPerson_username_found (db : DB) (h : Nat) (ord : OrderCreate)
    (now : Nat) (p : PersonRow)
    (hfind : db.persons.find? (fun q => q.hotelId == h && q.username == ord.username) =
      some p) :
    resolveOrderPerson db h ord none now =
      ({ db with persons := db.persons.map (fun q =>
          if q.id == p.id then { p with visitCount := p.visitCount + 1, lastVisit := now }
          else q) }, some p.id) := by
  have hpt : (!(personIdTruthy (none : Option Nat))) = true := rfl
  simp only [resolveOrderPerson, hpt, if_true, hfind]

theorem resolveOrderPerson_username_new (db : DB) (h : Nat) (ord : OrderCreate)
    (now : Nat)
    (hfind : db.persons.find? (fun q => q.hotelId == h && q.username == ord.username) =
      none) :
    resolveOrderPerson db h ord none now =
      ({ db with
          persons := db.persons ++
            [{ id := db.nextPersonId, hotelId := h, username := ord.username,
               password := ord.password, phoneNumber := none, visitCount := 1,
               lastVisit := now }],
          nextPersonId := db.nextPersonId + 1 }, some db.nextPersonId) := by
  have hpt : (!(personIdTruthy (none : Option Nat))) = true := rfl
  simp only [resolveOrderPerson, hpt, if_true, hfind]

/-- C3: registration preserves every person's visit count and creates new
persons with count zero; login and OTP verification preserve every
person's visit count; placing an order with a valid person id, or with the
username of an existing person, increments exactly that person's visit
count by one and links the order to them, leaving all other persons
untouched; and placing a first order under a fresh username creates the
person with visit count one and links the order to them. -/
theorem visit_count_discipline :
    (∀ (db : DB) (h : Nat) (un pw : String) (now : Nat),
        ((db.persons.map PersonRow.id).Nodup →
          ∀ q ∈ db.persons, ∃ q2 ∈ (register_user db h un pw now).1.persons,
            q2.id = q.id ∧ q2.visitCount = q.visitCount) ∧
        (db.persons.find? (fun q => q.hotelId == h && q.username == some un) = none →
          (register_user db h un pw now).2.visitCount = 0)) ∧
    (∀ (db : DB) (h : Nat) (un pw : String) (now : Nat) (db2 : DB) (r : PersonRow),
        (db.persons.map PersonRow.id).Nodup →
        login_user db h un pw now = .ok (db2, r) →
        ∀ q ∈ db.persons, ∃ q2 ∈ db2.persons,
          q2.id = q.id ∧ q2.visitCount = q.visitCount) ∧
    (∀ (db : DB) (h : Nat) (token otp phone : String) (now : Nat) (db2 : DB)
        (r : Option Nat),
        (db.persons.map PersonRow.id).Nodup →
        verify_otp_endpoint db h token otp phone now = .ok (db2, r) →
        ∀ q ∈ db.persons, ∃ q2 ∈ db2.persons,
          q2.id = q.id ∧ q2.visitCount = q.visitCount) ∧
    (∀ (db : DB) (h : Nat) (ord : OrderCreate) (pid now : Nat) (p : PersonRow),
        pid ≠ 0 →
        db.persons.find? (fun q => q.hotelId == h && some q.id == some pid) = some p →
        (create_order db h ord (some pid) now).2.personId = some pid ∧
        (∃ p2 ∈ (create_order db h ord (some pid) now).1.persons,
          p2.id = p.id ∧ p2.visitCount = p.visitCount + 1) ∧
        (∀ q ∈ db.persons, q.id ≠ p.id →
          q ∈ (create_order db h ord (some pid) now).1.persons)) ∧
    (∀ (db : DB) (h : Nat) (ord : OrderCreate) (now : Nat) (p : PersonRow),
        db.persons.find? (fun q => q.hotelId == h && q.username == ord.username) =
          some p →
        (create_order db h ord none now).2.personId = some p.id ∧
        (∃ p2 ∈ (create_order db h ord none now).1.persons,
          p2.id = p.id ∧ p2.visitCount = p.visitCount + 1) ∧
        (∀ q ∈ db.persons, q.id ≠ p.id →
          q ∈ (create_order db h ord none now).1.persons)) ∧
    (∀ (db : DB) (h : Nat) (ord : OrderCreate) (now : Nat),
        db.persons.find? (fun q => q.hotelId == h && q.username == ord.username) =
          none →
        (create_order db h ord none now).2.personId = some db.nextPersonId ∧
        (∃ p2 ∈ (create_order db h ord none now).1.persons,
          p2.id = db.nextPersonId ∧ p2.visitCount = 1) ∧
        (∀ q ∈ db.persons, q ∈ (create_order db h ord none now).1.persons)) := by
  refine ⟨?_, ?_, ?_, ?_, ?_, ?_⟩
  · intro db h un pw now
    constructor
    · intro hnd q hq
      cases hfind : db.persons.find?
          (fun q => q.hotelId == h && q.username == some un) with
      | some p =>
          simp only [register_user, hfind]
          exact persons_counts_preserved db.persons p { p with lastVisit := now } hnd
            (mem_of_find?_pred hfind).1 rfl rfl q hq
      | none =>
          simp only [register_user, hfind]
          exact ⟨q, List.mem_append_left _ hq, rfl, rfl⟩
    · intro hfind
      simp only [register_user, hfind]
  · intro db h un pw now db2 r hnd hok q hq
    obtain ⟨p, hfind, hdb2⟩ := login_user_ok_inversion db h un pw now db2 r hok
    rw [hdb2]
    exact persons_counts_preserved db.persons p { p with lastVisit := now } hnd
      (mem_of_find?_pred hfind).1 rfl rfl q hq
  · intro db h token otp phone now db2 r hnd hok q hq
    unfold verify_otp_endpoint at hok
    cases hv : verify_otp db token otp phone now with
    | error e => rw [hv] at hok; exact Except.noConfusion hok
    | ok db1 =>
        simp only [hv] at hok
        obtain ⟨rr, _, _, _, _, _, hdb1⟩ :=
          otp_verify_ok_inversion db token otp phone now db1 hv
        have hpers : db1.persons = db.persons := by rw [hdb1]
        cases hfu : db1.persons.find?
            (fun p => p.hotelId == h && p.phoneNumber == some phone) with
        | none =>
            simp only [hfu] at hok
            simp only [Except.ok.injEq, Prod.mk.injEq] at hok
            rw [← hok.1, hpers]
            exact ⟨q, hq, rfl, rfl⟩
        | some u =>
            simp only [hfu] at hok
            simp only [Except.ok.injEq, Prod.mk.injEq] at hok
            rw [← hok.1]
            show ∃ q2 ∈ db1.persons.map _, q2.id = q.id ∧ q2.visitCount = q.visitCount
            rw [hpers] at hfu ⊢
            exact persons_counts_preserved db.persons u { u with lastVisit := now } hnd
              (mem_of_find?_pred hfu).1 rfl rfl q hq
  · intro db h ord pid now p hpid hfind
    have hres := resolveOrderPerson_pid_found db h ord pid now p hpid hfind
    have hpe := create_order_persons_eq db h ord (some pid) now
    refine ⟨?_, ?_, ?_⟩
    · rw [hpe.2, hres]
    · rw [hpe.1, hres]
      exact ⟨{ p with visitCount := p.visitCount + 1, lastVisit := now },
        List.mem_map.mpr ⟨p, (mem_of_find?_pred hfind).1, by simp⟩, rfl, rfl⟩
    · intro q hq hne
      rw [hpe.1, hres]
      exact List.mem_map.mpr ⟨q, hq, by rw [if_neg (by simp [hne])]⟩
  · intro db h ord now p hfind
    have hres := resolveOrderPerson_username_found db h ord now p hfind
    have hpe := create_order_persons_eq db h ord none now
    refine ⟨?_, ?_, ?_⟩
    · rw [hpe.2, hres]
    · rw [hpe.1, hres]
      exact ⟨{ p with visitCount := p.visitCount + 1, lastVisit := now },
        List.mem_map.mpr ⟨p, (mem_of_find?_pred hfind).1, by simp⟩, rfl, rfl⟩
    · intro q hq hne
      rw [hpe.1, hres]
      exact List.mem_map.mpr ⟨q, hq, by rw [if_neg (by simp [hne])]⟩
  · intro db h ord now hfind
    have hres := resolveOrderPerson_username_new db h ord now hfind
    have hpe := create_order_persons_eq db h ord none now
    refine ⟨?_, ?_, ?_⟩
    · rw [hpe.2, hres]
    · rw [hpe.1, hres]
      refine ⟨_, List.mem_append_right _ (List.mem_singleton_self _), rfl, rfl⟩
    · intro q hq
      rw [hpe.1, hres]
      exact List.mem_append_left _ hq

/-- Witness person for C3. -/
def aliceC3 : PersonRow :=
  { id := 1, hotelId := 1, username := some "alice", password := some "pw",
    phoneNumber := some "999", visitCount := 5, lastVisit := 0 }

/-- Witness state for C3: one registered person and one fresh OTP
record. -/
def dbC3 : DB :=
  { dishes := [], persons := [aliceC3], orders := [], orderItems := [], tables := [],
    loyaltyTiers := [], selectionOffers := [],
    otpRequests :=
      [ { id := "tok", hotelId := 1, phoneNumber := "999", otpCode := "12345",
          createdAt := 0, verified := false } ],
    nextPersonId := 2, nextOrderId := 1, nextOrderItemId := 1 }

/-- Order bodies for the C3 witness: anonymous, known username, fresh
username. -/
def ordC3e : OrderCreate :=
  { tableNumber := 1, uniqueId := "c", items := [], username := none, password := none }

/-- Order body carrying the existing username. -/
def ordC3u : OrderCreate :=
  { tableNumber := 1, uniqueId := "c", items := [], username := some "alice",
    password := some "pw" }

/-- Order body carrying a fresh username. -/
def ordC3n : OrderCreate :=
  { tableNumber := 1, uniqueId := "c", items := [], username := some "dave",
    password := some "pw" }

/-- Witness for C3 at concrete runs of registration, login, OTP
verification and the three order-placement person paths. -/
theorem visit_count_discipline_witness :
    (∃ q2 ∈ (register_user dbC3 1 "alice" "pw" 9).1.persons,
      q2.id = 1 ∧ q2.visitCount = 5) ∧
    (register_user dbC3 1 "carol" "pw" 9).2.visitCount = 0 ∧
    (∃ q2 ∈ ({ dbC3 with persons := [{ aliceC3 with lastVisit := 9 }] } : DB).persons,
      q2.id = 1 ∧ q2.visitCount = 5) ∧
    (∃ q2 ∈ ({ dbC3 with
        otpRequests :=
          [ { id := "tok", hotelId := 1, phoneNumber := "999", otpCode := "12345",
              createdAt := 0, verified := true } ],
        persons := [{ aliceC3 with lastVisit := 9 }] } : DB).persons,
      q2.id = 1 ∧ q2.visitCount = 5) ∧
    ((create_order dbC3 1 ordC3e (some 1) 9).2.personId = some 1 ∧
      ∃ p2 ∈ (create_order dbC3 1 ordC3e (some 1) 9).1.persons,
        p2.id = 1 ∧ p2.visitCount = 6) ∧
    ((create_order dbC3 1 ordC3u none 9).2.personId = some 1 ∧
      ∃ p2 ∈ (create_order dbC3 1 ordC3u none 9).1.persons,
        p2.id = 1 ∧ p2.visitCount = 6) ∧
    ((create_order dbC3 1 ordC3n none 9).2.personId = some 2 ∧
      ∃ p2 ∈ (create_order dbC3 1 ordC3n none 9).1.persons,
        p2.id = 2 ∧ p2.visitCount = 1) := by
  refine ⟨?_, ?_, ?_, ?_, ?_, ?_, ?_⟩
  · exact (visit_count_discipline.1 dbC3 1 "alice" "pw" 9).1 (by decide) aliceC3
      (by decide)
  · exact (visit_count_discipline.1 dbC3 1 "carol" "pw" 9).2 rfl
  · exact visit_count_discipline.2.1 dbC3 1 "alice" "pw" 9
      { dbC3 with persons := [{ aliceC3 with lastVisit := 9 }] }
      { aliceC3 with lastVisit := 9 } (by decide) rfl aliceC3 (by decide)
  · exact visit_count_discipline.2.2.1 dbC3 1 "tok" "12345" "999" 9
      { dbC3 with
        otpRequests :=
          [ { id := "tok", hotelId := 1, phoneNumber := "999", otpCode := "12345",
              createdAt := 0, verified := true } ],
        persons := [{ aliceC3 with lastVisit := 9 }] }
      (some 1) (by decide) rfl aliceC3 (by decide)
  · have h := visit_count_discipline.2.2.2.1 dbC3 1 ordC3e 1 9 aliceC3 (by decide) rfl
    exact ⟨h.1, h.2.1⟩
  · have h := visit_count_discipline.2.2.2.2.1 dbC3 1 ordC3u 9 aliceC3 rfl
    exact ⟨h.1, h.2.1⟩
  · have h := visit_count_discipline.2.2.2.2.2 dbC3 1 ordC3n 9 rfl
    exact ⟨h.1, h.2.1⟩

/-! ## C8: table occupancy stays consistent with order status -/

theorem create_order_tables_marked (db : DB) (h : Nat) (ord : OrderCreate)
    (pid : Option Nat) (now : Nat) (t : TableRow)
    (hfindT : db.tables.find? (fun u => u.hotelId == h && u.tableNumber == ord.tableNumber) =
      some t) :
    (create_order db h ord pid now).1.tables =
      db.tables.map (fun u =>
        if u.id == t.id then
          { u with isOccupied := true,
                   currentOrderId := some (create_order db h ord pid now).2.id }
        else u) := by
  obtain ⟨ps, np, hres⟩ := resolveOrderPerson_shape db h ord pid now
  simp only [create_order]
  rw [(foldl_addOrderItem_fixed _ _ _ _).2.2]
  rw [hres]
  split
  · rename_i t' heq
    have heq2 : db.tables.find?
        (fun u => u.hotelId == h && u.tableNumber == ord.tableNumber) = some t' := heq
    rw [hfindT] at heq2
    injection heq2 with ht
    subst ht
    rfl
  · rename_i heq
    have heq2 : db.tables.find?
        (fun u => u.hotelId == h && u.tableNumber == ord.tableNumber) = none := heq
    rw [hfindT] at heq2
    exact Option.noConfusion heq2

/-- C8: placing an order marks the order's table occupied pointing at the
new order; paying an order that is the last not-paid, not-cancelled order
at its table frees that table and clears its pointer; cancelling a pending
order that is the table's current order frees the table and clears its
pointer. -/
theorem table_state_consistency :
    (∀ (db : DB) (h : Nat) (ord : OrderCreate) (pid : Option Nat) (now : Nat)
        (t : TableRow),
        db.tables.find?
          (fun u => u.hotelId == h && u.tableNumber == ord.tableNumber) = some t →
        ∃ t2 ∈ (create_order db h ord pid now).1.tables, t2.id = t.id ∧
          t2.isOccupied = true ∧
          t2.currentOrderId = some (create_order db h ord pid now).2.id) ∧
    (∀ (db : DB) (h oid now : Nat) (db2 : DB) (m : String) (o : OrderRow) (t : TableRow),
        db.orders.find? (fun u => u.hotelId == h && u.id == oid) = some o →
        o.status = "completed" →
        request_payment db h oid now = .ok (db2, m) →
        db.orders.filter (fun u => u.tableNumber == o.tableNumber &&
          u.status != "paid" && u.status != "cancelled") = [o] →
        db.tables.find? (fun u => u.tableNumber == o.tableNumber) = some t →
        ∃ t2 ∈ db2.tables, t2.id = t.id ∧ t2.isOccupied = false ∧
          t2.currentOrderId = none) ∧
    (∀ (db : DB) (h oid now : Nat) (db2 : DB) (m : String) (o : OrderRow) (t : TableRow),
        db.orders.find? (fun u => u.hotelId == h && u.id == oid) = some o →
        cancel_order db h oid now = .ok (db2, m) →
        db.tables.find? (fun u => u.tableNumber == o.tableNumber) = some t →
        t.currentOrderId = some o.id →
        ∃ t2 ∈ db2.tables, t2.id = t.id ∧ t2.isOccupied = false ∧
          t2.currentOrderId = none) := by
  refine ⟨?_, ?_, ?_⟩
  · intro db h ord pid now t hfindT
    rw [create_order_tables_marked db h ord pid now t hfindT]
    refine ⟨{ t with isOccupied := true,
                     currentOrderId := some (create_order db h ord pid now).2.id },
      List.mem_map.mpr ⟨t, (mem_of_find?_pred hfindT).1, ?_⟩, rfl, rfl, rfl⟩
    simp
  · intro db h oid now db2 m o t hfind hst hok hfilter hfindT
    rcases request_payment_ok_inversion db h oid now db2 m hok with
      ⟨_, o', hfind', hp⟩ | ⟨o', hfind', _, hdb2⟩
    · rw [hfind] at hfind'
      cases hfind'
      rw [hst] at hp
      exact absurd hp (by decide)
    · rw [hfind] at hfind'
      cases hfind'
      have hid : o.id = oid := by
        have hpred := (mem_of_find?_pred hfind).2
        simp only [Bool.and_eq_true, beq_iff_eq] at hpred
        exact hpred.2
      have htab : db2.tables = freeTables db.tables o.tableNumber now := by
        rw [hdb2]
        simp only [processPayment, hfilter]
        rw [if_pos (beq_iff_eq.mpr hid)]
      rw [htab]
      simp only [freeTables, hfindT]
      refine ⟨{ t with isOccupied := false, currentOrderId := none, updatedAt := now },
        List.mem_map.mpr ⟨t, (mem_of_find?_pred hfindT).1, ?_⟩, rfl, rfl, rfl⟩
      simp
  · intro db h oid now db2 m o t hfind hok hfindT hcur
    obtain ⟨o', hfind', _, hdb2⟩ := cancel_order_ok_inversion db h oid now db2 m hok
    rw [hfind] at hfind'
    cases hfind'
    have htab : db2.tables = db.tables.map (fun u =>
        if u.id == t.id then
          { u with isOccupied := false, currentOrderId := none, updatedAt := now }
        else u) := by
      rw [hdb2]
      simp only [hfindT]
      rw [if_pos (beq_iff_eq.mpr hcur)]
    rw [htab]
    refine ⟨{ t with isOccupied := false, currentOrderId := none, updatedAt := now },
      List.mem_map.mpr ⟨t, (mem_of_find?_pred hfindT).1, ?_⟩, rfl, rfl, rfl⟩
    simp

/-- Witness state for the C8 order-placement case: one free table. -/
def dbC8 : DB :=
  { dishes := [], persons := [], orders := [], orderItems := [],
    tables :=
      [ { id := 1, hotelId := 1, tableNumber := 1, isOccupied := false,
          currentOrderId := none, updatedAt := 0 } ],
    loyaltyTiers := [], selectionOffers := [], otpRequests := [],
    nextPersonId := 1, nextOrderId := 1, nextOrderItemId := 1 }

/-- Order body for the C8 witness. -/
def ordC8 : OrderCreate :=
  { tableNumber := 1, uniqueId := "t", items := [], username := none, password := none }

/-- Witness state for the C8 cancellation case: a pending order that is
its table's current order. -/
def dbC8c : DB :=
  { dishes := [], persons := [], orders := [mkOrder 1 2 "pending"], orderItems := [],
    tables :=
      [ { id := 3, hotelId := 1, tableNumber := 2, isOccupied := true,
          currentOrderId := some 1, updatedAt := 0 } ],
    loyaltyTiers := [], selectionOffers := [], otpRequests := [],
    nextPersonId := 1, nextOrderId := 2, nextOrderItemId := 1 }

/-- `dbC8c` after cancelling order 1. -/
def dbC8c2 : DB :=
  { dbC8c with
    orders := [{ mkOrder 1 2 "pending" with status := "cancelled", updatedAt := 9 }],
    tables :=
      [ { id := 3, hotelId := 1, tableNumber := 2, isOccupied := false,
          currentOrderId := none, updatedAt := 9 } ] }

/-- Witness for C8 at concrete runs: placing an order occupies the free
table, paying the last unpaid order frees the `dbPay` table, and
cancelling the current pending order frees its table. -/
theorem table_state_consistency_witness :
    (∃ t2 ∈ (create_order dbC8 1 ordC8 none 9).1.tables, t2.id = 1 ∧
      t2.isOccupied = true ∧
      t2.currentOrderId = some (create_order dbC8 1 ordC8 none 9).2.id) ∧
    (∃ t2 ∈ (processPayment dbPay 1 1 ordPay 7).tables, t2.id = 1 ∧
      t2.isOccupied = false ∧ t2.currentOrderId = none) ∧
    (∃ t2 ∈ dbC8c2.tables, t2.id = 3 ∧ t2.isOccupied = false ∧
      t2.currentOrderId = none) := by
  refine ⟨?_, ?_, ?_⟩
  · exact table_state_consistency.1 dbC8 1 ordC8 none 9
      ⟨1, 1, 1, false, none, 0⟩ rfl
  · exact table_state_consistency.2.1 dbPay 1 1 7 (processPayment dbPay 1 1 ordPay 7)
      "Payment completed successfully" ordPay ⟨1, 1, 5, true, some 1, 0⟩
      rfl rfl rfl rfl rfl
  · exact table_state_consistency.2.2 dbC8c 1 1 9 dbC8c2 "Order cancelled successfully"
      (mkOrder 1 2 "pending") ⟨3, 1, 2, true, some 1, 0⟩ rfl rfl rfl rfl

end Tabble
